import Mathlib

/-
Verification of the NBA dashboard ingestion and flattening pipeline.

The development shallowly embeds the two bronze-layer fetch scripts

  - src/scripts/bronze_layer_1.py   (scoreboard fetch, retry loop, upload)
  - src/plugins/bronze_layer_2.py   (boxscore fetch: get_game_ids,
                                     batch_config, process_game_batch,
                                     process_game_with_retry)

and the silver-layer flattening script

  - src/scripts/silver_layer_1.py   (six extractors, process_single_file,
                                     NBASilverProcessor.process_yesterdays_games,
                                     NBASilverProcessor.insert_to_bigquery)

into Lean.  Parsed JSON documents are modelled by the inductive type `Json`
(Python `None` is `Json.null`); Python dictionaries are association lists.
A Python expression that can raise is modelled in `Except Unit`; an
extractor's surrounding try/except, which returns the records accumulated
before the exception, is modelled by explicit control flow that returns the
accumulated list on `Except.error`.  Network and storage I/O is modelled by
oracles: a fetch attempt is a `Bool`-valued oracle (`true` = the whole
attempt, including the upload, succeeds) and a BigQuery load job is a
`Bool`-valued oracle on the chunk it loads.
-/

/-- Model of a parsed JSON document.  `null` also stands for Python `None`. -/
inductive Json where
  | null : Json
  | bool (b : Bool) : Json
  | num (n : Int) : Json
  | str (s : String) : Json
  | arr (elems : List Json) : Json
  | obj (kvs : List (String × Json)) : Json

/-- A flattened record: the Python dict literal built by an extractor,
with its keys in source order. -/
abbrev Record := List (String × Json)

/-- Python `d.get(k)`: `None` when the key is absent, `AttributeError`
(modelled as `Except.error`) when `d` is not a dict. -/
def pyGet : Json → String → Except Unit Json
  | .obj kvs, k => .ok ((kvs.lookup k).getD .null)
  | _, _ => .error ()

/-- Python `d[k]` subscription on a dict: `KeyError` when the key is absent,
`TypeError` when `d` is not a dict. -/
def pyIndex : Json → String → Except Unit Json
  | .obj kvs, k =>
    match kvs.lookup k with
    | some v => .ok v
    | none => .error ()
  | _, _ => .error ()

/-- Python `row[i]` subscription with a non-negative integer index. -/
def pySubscript : Json → Nat → Except Unit Json
  | .arr xs, i =>
    match xs.get? i with
    | some v => .ok v
    | none => .error ()
  | .str s, i =>
    match s.data.get? i with
    | some c => .ok (.str (String.mk [c]))
    | none => .error ()
  | _, _ => .error ()

/-- Python truthiness of a JSON value. -/
def truthy : Json → Bool
  | .null => false
  | .bool b => b
  | .num n => n != 0
  | .str s => s != ""
  | .arr xs => !xs.isEmpty
  | .obj kvs => !kvs.isEmpty

/-- Python iteration over a JSON value: lists yield their elements, strings
their characters, dicts their keys; other values raise `TypeError`. -/
def pyIterate : Json → Except Unit (List Json)
  | .arr xs => .ok xs
  | .str s => .ok (s.data.map (fun c => .str (String.mk [c])))
  | .obj kvs => .ok (kvs.map (fun kv => .str kv.1))
  | _ => .error ()

/-- silver_layer_1.extract_meta_data: one `meta` record, or `[]` when the
`meta` section is absent/falsy or an exception is caught. -/
def extract_meta_data (data : Json) (source_file : String) (game_date : Json) :
    List Record :=
  match pyGet data "meta" with
  | .error _ => []
  | .ok meta =>
    if truthy meta then
      match pyGet meta "version", pyGet meta "request", pyGet meta "time" with
      | .ok v, .ok r, .ok t =>
        [[("block_type", Json.str "meta"), ("version", v), ("request", r),
          ("time", t), ("source_file", Json.str source_file),
          ("game_date", game_date)]]
      | _, _, _ => []
    else []

/-- silver_layer_1.extract_game_header: one game-identification record rooted
at `boxScoreTraditional`, or `[]`. -/
def extract_game_header (data : Json) (source_file : String) (game_date : Json) :
    List Record :=
  match pyGet data "boxScoreTraditional" with
  | .error _ => []
  | .ok boxscore =>
    if truthy boxscore then
      match pyGet boxscore "gameId", pyGet boxscore "awayTeamId",
            pyGet boxscore "homeTeamId" with
      | .ok g, .ok a, .ok h =>
        [[("block_type", Json.str "game_header"), ("game_id", g),
          ("away_team_id", a), ("home_team_id", h),
          ("source_file", Json.str source_file), ("game_date", game_date)]]
      | _, _, _ => []
    else []

/-- The team-identification dict literal of silver_layer_1.extract_team_info;
errors when one of the `.get` calls raises. -/
def teamInfoRecord (game_id team : Json) (is_home : Bool)
    (source_file : String) (game_date : Json) : Except Unit Record := do
  let tid ← pyGet team "teamId"
  let tcity ← pyGet team "teamCity"
  let tname ← pyGet team "teamName"
  let ttri ← pyGet team "teamTricode"
  let tslug ← pyGet team "teamSlug"
  .ok [("block_type", Json.str "team_info"), ("game_id", game_id),
       ("team_id", tid), ("team_city", tcity), ("team_name", tname),
       ("team_tricode", ttri), ("team_slug", tslug),
       ("is_home_team", Json.bool is_home),
       ("source_file", Json.str source_file), ("game_date", game_date)]

/-- silver_layer_1.extract_team_info: home record then away record; the
try/except returns the records accumulated before any raised exception. -/
def extract_team_info (data : Json) (source_file : String) (game_date : Json) :
    List Record :=
  match pyGet data "boxScoreTraditional" with
  | .error _ => []
  | .ok boxscore =>
  match pyGet boxscore "gameId" with
  | .error _ => []
  | .ok game_id =>
  match pyGet boxscore "homeTeam" with
  | .error _ => []
  | .ok home_team =>
  match
    (if truthy home_team then
      match teamInfoRecord game_id home_team true source_file game_date with
      | .ok r => (([r] : List Record), true)
      | .error _ => ([], false)
    else ([], true)) with
  | (recs, false) => recs
  | (recs, true) =>
    match pyGet boxscore "awayTeam" with
    | .error _ => recs
    | .ok away_team =>
      if truthy away_team then
        match teamInfoRecord game_id away_team false source_file game_date with
        | .ok r => recs ++ [r]
        | .error _ => recs
      else recs

/-- The nineteen statistic fields shared by team_statistics, team_starters and
player_statistics records (in source order, `plusMinusPoints` excluded);
errors when `stats` does not support `.get`. -/
def teamStatsFields (stats : Json) : Except Unit (List (String × Json)) := do
  let minutes ← pyGet stats "minutes"
  let fgm ← pyGet stats "fieldGoalsMade"
  let fga ← pyGet stats "fieldGoalsAttempted"
  let fgp ← pyGet stats "fieldGoalsPercentage"
  let tpm ← pyGet stats "threePointersMade"
  let tpa ← pyGet stats "threePointersAttempted"
  let tpp ← pyGet stats "threePointersPercentage"
  let ftm ← pyGet stats "freeThrowsMade"
  let fta ← pyGet stats "freeThrowsAttempted"
  let ftp ← pyGet stats "freeThrowsPercentage"
  let roff ← pyGet stats "reboundsOffensive"
  let rdef ← pyGet stats "reboundsDefensive"
  let rtot ← pyGet stats "reboundsTotal"
  let ast ← pyGet stats "assists"
  let stl ← pyGet stats "steals"
  let blk ← pyGet stats "blocks"
  let tov ← pyGet stats "turnovers"
  let pf ← pyGet stats "foulsPersonal"
  let pts ← pyGet stats "points"
  .ok [("minutes", minutes), ("field_goals_made", fgm),
       ("field_goals_attempted", fga), ("field_goals_percentage", fgp),
       ("three_pointers_made", tpm), ("three_pointers_attempted", tpa),
       ("three_pointers_percentage", tpp), ("free_throws_made", ftm),
       ("free_throws_attempted", fta), ("free_throws_percentage", ftp),
       ("rebounds_offensive", roff), ("rebounds_defensive", rdef),
       ("rebounds_total", rtot), ("assists", ast), ("steals", stl),
       ("blocks", blk), ("turnovers", tov), ("fouls_personal", pf),
       ("points", pts)]

/-- One team_statistics record (with `plus_minus_points`). -/
def teamStatsRecord (game_id team stats : Json) (is_home : Bool)
    (source_file : String) (game_date : Json) : Except Unit Record := do
  let tid ← pyGet team "teamId"
  let fields ← teamStatsFields stats
  let pm ← pyGet stats "plusMinusPoints"
  .ok ([("block_type", Json.str "team_statistics"), ("game_id", game_id),
        ("team_id", tid), ("is_home_team", Json.bool is_home)] ++ fields ++
       [("plus_minus_points", pm), ("source_file", Json.str source_file),
        ("game_date", game_date)])

/-- silver_layer_1.extract_team_statistics. -/
def extract_team_statistics (data : Json) (source_file : String)
    (game_date : Json) : List Record :=
  match pyGet data "boxScoreTraditional" with
  | .error _ => []
  | .ok boxscore =>
  match pyGet boxscore "gameId" with
  | .error _ => []
  | .ok game_id =>
  match pyGet boxscore "homeTeam" with
  | .error _ => []
  | .ok home_team =>
  match pyGet home_team "statistics" with
  | .error _ => []
  | .ok home_stats =>
  match
    (if truthy home_stats then
      match teamStatsRecord game_id home_team home_stats true source_file game_date with
      | .ok r => (([r] : List Record), true)
      | .error _ => ([], false)
    else ([], true)) with
  | (recs, false) => recs
  | (recs, true) =>
    match pyGet boxscore "awayTeam" with
    | .error _ => recs
    | .ok away_team =>
    match pyGet away_team "statistics" with
    | .error _ => recs
    | .ok away_stats =>
      if truthy away_stats then
        match teamStatsRecord game_id away_team away_stats false source_file game_date with
        | .ok r => recs ++ [r]
        | .error _ => recs
      else recs

/-- One team_starters record (no `plus_minus_points`). -/
def teamStartersRecord (game_id team starters : Json) (is_home : Bool)
    (source_file : String) (game_date : Json) : Except Unit Record := do
  let tid ← pyGet team "teamId"
  let fields ← teamStatsFields starters
  .ok ([("block_type", Json.str "team_starters"), ("game_id", game_id),
        ("team_id", tid), ("is_home_team", Json.bool is_home)] ++ fields ++
       [("source_file", Json.str source_file), ("game_date", game_date)])

/-- silver_layer_1.extract_team_starters. -/
def extract_team_starters (data : Json) (source_file : String)
    (game_date : Json) : List Record :=
  match pyGet data "boxScoreTraditional" with
  | .error _ => []
  | .ok boxscore =>
  match pyGet boxscore "gameId" with
  | .error _ => []
  | .ok game_id =>
  match pyGet boxscore "homeTeam" with
  | .error _ => []
  | .ok home_team =>
  match pyGet home_team "starters" with
  | .error _ => []
  | .ok home_starters =>
  match
    (if truthy home_starters then
      match teamStartersRecord game_id home_team home_starters true source_file game_date with
      | .ok r => (([r] : List Record), true)
      | .error _ => ([], false)
    else ([], true)) with
  | (recs, false) => recs
  | (recs, true) =>
    match pyGet boxscore "awayTeam" with
    | .error _ => recs
    | .ok away_team =>
    match pyGet away_team "starters" with
    | .error _ => recs
    | .ok away_starters =>
      if truthy away_starters then
        match teamStartersRecord game_id away_team away_starters false source_file game_date with
        | .ok r => recs ++ [r]
        | .error _ => recs
      else recs

/-- One player_statistics record for the roster entry `player` at positional
index `i` of its team's roster, as built inside the loops of
silver_layer_1.extract_player_statistics. -/
def playerRecord (game_id team_id : Json) (is_home : Bool) (i : Nat)
    (player : Json) (source_file : String) (game_date : Json) :
    Except Unit Record := do
  let stats ← pyGet player "statistics"
  let person_id ← pyGet player "personId"
  let first_name ← pyGet player "firstName"
  let family_name ← pyGet player "familyName"
  let name_i ← pyGet player "nameI"
  let player_slug ← pyGet player "playerSlug"
  let position ← pyGet player "position"
  let comment ← pyGet player "comment"
  let jersey_num ← pyGet player "jerseyNum"
  let fields ← teamStatsFields stats
  let pm ← pyGet stats "plusMinusPoints"
  .ok ([("block_type", Json.str "player_statistics"), ("game_id", game_id),
        ("team_id", team_id), ("is_home_team", Json.bool is_home),
        ("player_index", Json.num i), ("person_id", person_id),
        ("first_name", first_name), ("family_name", family_name),
        ("name_i", name_i), ("player_slug", player_slug),
        ("position", position), ("comment", comment),
        ("jersey_num", jersey_num)] ++ fields ++
       [("plus_minus_points", pm), ("source_file", Json.str source_file),
        ("game_date", game_date)])

/-- The `for i, player in enumerate(...)` loop body of
extract_player_statistics: appends one record per roster entry; a raised
exception stops the loop and flags failure (`false`), keeping the records
accumulated so far. -/
def playersLoop (mk : Nat → Json → Except Unit Record) :
    Nat → List Json → List Record → List Record × Bool
  | _, [], recs => (recs, true)
  | i, p :: ps, recs =>
    match mk i p with
    | .error _ => (recs, false)
    | .ok r => playersLoop mk (i + 1) ps (recs ++ [r])

/-- silver_layer_1.extract_player_statistics: home roster loop, then away
roster loop; the surrounding try/except returns accumulated records. -/
def extract_player_statistics (data : Json) (source_file : String)
    (game_date : Json) : List Record :=
  match pyGet data "boxScoreTraditional" with
  | .error _ => []
  | .ok boxscore =>
  match pyGet boxscore "gameId" with
  | .error _ => []
  | .ok game_id =>
  match pyGet boxscore "homeTeam" with
  | .error _ => []
  | .ok home_team =>
  match pyGet home_team "teamId" with
  | .error _ => []
  | .ok home_team_id =>
  match pyGet home_team "players" with
  | .error _ => []
  | .ok home_players_json =>
  match pyIterate home_players_json with
  | .error _ => []
  | .ok home_players =>
  match playersLoop
      (fun i p => playerRecord game_id home_team_id true i p source_file game_date)
      0 home_players [] with
  | (recs, false) => recs
  | (recs, true) =>
    match pyGet boxscore "awayTeam" with
    | .error _ => recs
    | .ok away_team =>
    match pyGet away_team "teamId" with
    | .error _ => recs
    | .ok away_team_id =>
    match pyGet away_team "players" with
    | .error _ => recs
    | .ok away_players_json =>
    match pyIterate away_players_json with
    | .error _ => recs
    | .ok away_players =>
      (playersLoop
        (fun i p => playerRecord game_id away_team_id false i p source_file game_date)
        0 away_players recs).1

/-- Python `s.split('=')[1]` for a string known to contain `=` (guarded in the
source by a `startswith` test, so index 1 always exists). -/
def splitEq1 (s : String) : String :=
  (s.splitOn "=").getD 1 ""

/-- Python `str.zfill` on the digit strings appearing in blob paths: pad on
the left with zeros up to length `n`. -/
def zfill (n : Nat) (s : String) : String :=
  if n ≤ s.length then s else String.mk (List.replicate (n - s.length) '0') ++ s

/-- The `for part in parts` loop of process_single_file that recovers the
year, month and day components from the blob path segments. -/
def dateComponents : List String → Option String × Option String × Option String →
    Option String × Option String × Option String
  | [], acc => acc
  | part :: rest, (y, m, d) =>
    if part.startsWith "year=" then dateComponents rest (some (splitEq1 part), m, d)
    else if part.startsWith "month=" then dateComponents rest (y, some (splitEq1 part), d)
    else if part.startsWith "day=" then dateComponents rest (y, m, some (splitEq1 part))
    else dateComponents rest (y, m, d)

/-- Python truthiness of the `year` / `month` / `day` variables (initially
`None`, possibly assigned a string by the path loop). -/
def truthyStr : Option String → Bool
  | none => false
  | some s => s != ""

/-- The `game_date` value process_single_file derives from a blob name:
`"YYYY-MM-DD"` when all three components were found and non-empty, else
Python `None` (`Json.null`). -/
def gameDateOf (blob_name : String) : Json :=
  match dateComponents (blob_name.splitOn "/") (none, none, none) with
  | (y, m, d) =>
    if truthyStr y && truthyStr m && truthyStr d then
      .str (y.getD "" ++ "-" ++ zfill 2 (m.getD "") ++ "-" ++ zfill 2 (d.getD ""))
    else .null

/-- silver_layer_1.process_single_file.  The download of the blob, the
parquet read and `json.loads(raw_response)` are collapsed into the `raw`
argument: `Except.error` models any exception raised by that prefix of the
function.  No try/except surrounds the body in the source, so that error
propagates to the caller; otherwise the six extractors run on the document
with the blob name and derived game date as provenance. -/
def process_single_file (blob_name : String) (raw : Except Unit Json) :
    Except Unit (List Record) :=
  match raw with
  | .error e => .error e
  | .ok data =>
    let game_date := gameDateOf blob_name
    .ok (extract_meta_data data blob_name game_date ++
         extract_game_header data blob_name game_date ++
         extract_team_info data blob_name game_date ++
         extract_team_statistics data blob_name game_date ++
         extract_team_starters data blob_name game_date ++
         extract_player_statistics data blob_name game_date)

/-- Map a fallible function over a list, propagating the first error — the
behaviour of joblib's `Parallel`, which re-raises the first worker
exception, and of a list comprehension over fallible calls. -/
def exceptMap {α β : Type} (f : α → Except Unit β) : List α → Except Unit (List β)
  | [] => .ok []
  | a :: as =>
    match f a with
    | .error e => .error e
    | .ok b =>
      match exceptMap f as with
      | .error e => .error e
      | .ok bs => .ok (b :: bs)

/-- NBASilverProcessor.process_yesterdays_games: an empty blob listing
returns `[]`; otherwise every blob is processed by process_single_file and
the per-document record lists are concatenated.  A document whose processing
raises makes the whole joblib `Parallel` call — and hence this function —
raise. -/
def process_yesterdays_games (blobs : List (String × Except Unit Json)) :
    Except Unit (List Record) :=
  if blobs.isEmpty then .ok []
  else
    match exceptMap (fun b => process_single_file b.1 b.2) blobs with
    | .error e => .error e
    | .ok results => .ok results.flatten

/-- Python `range(0, total, step)` for positive `step`. -/
def pyRangeBy (total step : Nat) : List Nat :=
  (List.range ((total + step - 1) / step)).map (· * step)

/-- The slice-comprehension chunking pattern `[l[i:i+n] for i in
range(0, len(l), n)]` used by batch_config (n = 4) and by
insert_to_bigquery's chunk loop (n = 10000). -/
def pySlices {α : Type} (n : Nat) (l : List α) : List (List α) :=
  (pyRangeBy l.length n).map (fun i => (l.drop i).take n)

/-- NBASilverProcessor.insert_to_bigquery: nothing is loaded for empty input;
otherwise the records are cut into consecutive 10,000-record chunks, and one
load job per chunk is attempted.  `loadOk` is the outcome oracle of the
BigQuery load job for a chunk; a failed job is caught, logged and skipped,
so the result is the list of all attempted chunks paired with their
outcomes. -/
def insert_to_bigquery (loadOk : List Record → Bool) (data : List Record) :
    List (List Record × Bool) :=
  if data.isEmpty then []
  else (pyRangeBy data.length 10000).map (fun i =>
    ((data.drop i).take 10000, loadOk ((data.drop i).take 10000)))

/-- An HTTP GET call site: everything the source passes to
`requests.get` / `session.get` that the claims talk about. -/
structure HttpRequest where
  url : String
  hasHeaders : Bool
  params : List (String × Json)
  hasProxies : Bool
  timeout : Option Nat

/-- The boxscore GET of NBABoxscoreProcessor.process_game_with_retry
(bronze_layer_2.py): carries `timeout=30`. -/
def boxscoreRequest (game_id : Json) : HttpRequest :=
  { url := "ENDPOINT_URL", hasHeaders := true,
    params := [("GameID", game_id), ("LeagueID", Json.str "00")],
    hasProxies := true, timeout := some 30 }

/-- The scoreboard GET of get_nba_scoreboard (bronze_layer_1.py): the source
passes headers, params and proxies but no `timeout` keyword. -/
def scoreboardRequest (date_parameter : String) : HttpRequest :=
  { url := "ENDPOINT_URL", hasHeaders := true,
    params := [("DayOffset", Json.str "0"),
               ("GameDate", Json.str date_parameter),
               ("LeagueID", Json.str "00")],
    hasProxies := true, timeout := none }

/-- The `while retry_count < max_retries` retry loop shared (with different
delays) by both bronze scripts, written with the loop fuel
`max_retries - retry_count` made explicit.  `attempt rc` tells whether the
iteration entered with `retry_count = rc` runs to the end of its try block
(for the boxscore loop this includes the upload).  Returns the final
`retry_count`, the number of completed try blocks (uploads, for the boxscore
loop), the list of performed `time.sleep` durations, and the list of issued
HTTP requests. -/
def retryGo (req : HttpRequest) (attempt : Nat → Bool) (retry_delay : Nat) :
    Nat → Nat → Nat → List Nat → List HttpRequest →
    Nat × Nat × List Nat × List HttpRequest
  | 0, rc, ups, sleeps, reqs => (rc, ups, sleeps, reqs)
  | fuel + 1, rc, ups, sleeps, reqs =>
    if attempt rc then (rc, ups + 1, sleeps, reqs ++ [req])
    else retryGo req attempt retry_delay fuel (rc + 1) ups
      (sleeps ++ [retry_delay * (rc + 1)]) (reqs ++ [req])

/-- The outcome of one resource's fetch-and-store: final result, number of
uploaded snapshot objects, sleeps performed, requests issued. -/
structure RetryOutcome where
  success : Bool
  uploads : Nat
  sleeps : List Nat
  requests : List HttpRequest

/-- NBABoxscoreProcessor.process_game_with_retry: max_retries = 3,
retry_delay = 3; the upload happens inside the try block, a successful
iteration breaks out, and after the loop the function returns
`False` when `retry_count >= max_retries`, else `True`. -/
def process_game_with_retry (game_id : Json) (attempt : Nat → Bool) :
    RetryOutcome :=
  match retryGo (boxscoreRequest game_id) attempt 3 3 0 0 [] [] with
  | (rc, ups, sleeps, reqs) =>
    { success := decide (rc < 3), uploads := ups, sleeps := sleeps,
      requests := reqs }

/-- NBABoxscoreProcessor.process_game_batch: one shared session, a 0.1 s
pacing sleep, then process_game_with_retry for every game of the batch in
order; the per-game boolean results are not inspected, so every game is
attempted. -/
def process_game_batch (attempt : Json → Nat → Bool) (game_batch : List Json) :
    List (Json × RetryOutcome) :=
  game_batch.map (fun g => (g, process_game_with_retry g (attempt g)))

/-- Outcome of get_nba_scoreboard (bronze_layer_1.py). -/
structure ScoreboardOutcome where
  success : Bool
  uploads : Nat
  sleeps : List Nat
  requests : List HttpRequest
  message : Option String

/-- get_nba_scoreboard: max_retries = 3, retry_delay = 2; the try block only
fetches and decodes, and the single upload happens after the loop when some
attempt succeeded; exhausting the retries returns an error message. -/
def get_nba_scoreboard (date_parameter : String) (attempt : Nat → Bool) :
    ScoreboardOutcome :=
  match retryGo (scoreboardRequest date_parameter) attempt 2 3 0 0 [] [] with
  | (rc, _, sleeps, reqs) =>
    if 3 ≤ rc then
      { success := false, uploads := 0, sleeps := sleeps, requests := reqs,
        message := some "ERROR: Failed to get NBA scoreboard data after 3 attempts" }
    else
      { success := true, uploads := 1, sleeps := sleeps, requests := reqs,
        message := none }

/-- The generator search `next((r for r in json_data["resultSets"] if
r["name"] == "GameHeader"), None)`: evaluates `r["name"]` for each entry in
turn (raising `KeyError`/`TypeError` when that subscription fails) until a
match is found. -/
def findGameHeader : List Json → Except Unit (Option Json)
  | [] => .ok none
  | r :: rs =>
    match pyIndex r "name" with
    | .error e => .error e
    | .ok nm =>
      match nm with
      | .str s => if s = "GameHeader" then .ok (some r) else findGameHeader rs
      | _ => findGameHeader rs

/-- Python `list.index(x)` for the string `x`: position of the first equal
element, `ValueError` (error) when absent. -/
def pyIndexOfStr (target : String) : List Json → Except Unit Nat
  | [] => .error ()
  | x :: xs =>
    match x with
    | .str s =>
      if s = target then .ok 0
      else (pyIndexOfStr target xs).map (· + 1)
    | _ => (pyIndexOfStr target xs).map (· + 1)

/-- NBABoxscoreProcessor.get_game_ids, applied to the already-decoded
scoreboard document (the download, parquet read and `json.loads` are the
caller's `raw` plumbing): finds the `GameHeader` result set, returns `[]`
when there is none, else projects the `GAME_ID` column of its `rowSet`. -/
def get_game_ids (json_data : Json) : Except Unit (List Json) := do
  let rsetsJson ← pyIndex json_data "resultSets"
  let rsets ← pyIterate rsetsJson
  let gh ← findGameHeader rsets
  match gh with
  | none => .ok []
  | some game_header => do
    let headersJson ← pyIndex game_header "headers"
    let headers ← pyIterate headersJson
    let game_id_index ← pyIndexOfStr "GAME_ID" headers
    let rowSetJson ← pyIndex game_header "rowSet"
    let rows ← pyIterate rowSetJson
    exceptMap (fun row => pySubscript row game_id_index) rows

/-- NBABoxscoreProcessor.batch_config: fetch the game ids, cut them into
batches of 4, run process_game_batch on every batch (joblib; the flattened
per-game log is returned here), and return the success message. -/
def batch_config (scoreboard : Json) (attempt : Json → Nat → Bool) :
    Except Unit (String × List (List Json) × List (Json × RetryOutcome)) := do
  let game_ids ← get_game_ids scoreboard
  let game_batches := pySlices 4 game_ids
  .ok ("Processing complete", game_batches,
       (game_batches.map (fun batch => process_game_batch attempt batch)).flatten)

/-- A scoreboard document whose GameHeader result set lists ten games. -/
def tenGameScoreboard : Json := Json.obj [("resultSets", Json.arr [Json.obj [
  ("name", Json.str "GameHeader"),
  ("headers", Json.arr [Json.str "GAME_ID"]),
  ("rowSet", Json.arr [
    Json.arr [Json.str "G01"], Json.arr [Json.str "G02"],
    Json.arr [Json.str "G03"], Json.arr [Json.str "G04"],
    Json.arr [Json.str "G05"], Json.arr [Json.str "G06"],
    Json.arr [Json.str "G07"], Json.arr [Json.str "G08"],
    Json.arr [Json.str "G09"], Json.arr [Json.str "G10"]])]])]

/-- The ten game ids of `tenGameScoreboard`. -/
def tenGameIds : List Json :=
  [Json.str "G01", Json.str "G02", Json.str "G03", Json.str "G04",
   Json.str "G05", Json.str "G06", Json.str "G07", Json.str "G08",
   Json.str "G09", Json.str "G10"]

/-- Number of leading failed attempts of a 3-attempt retry run (capped at
3): the loop sleeps once after each of these. -/
def leadingFailures (attempt : Nat → Bool) : Nat :=
  if attempt 0 then 0 else if attempt 1 then 1 else if attempt 2 then 2 else 3

/-- An entry of `resultSets` whose `name` subscription succeeds and is not
the string `"GameHeader"` (a non-string `name` compares unequal in
Python). -/
def notGameHeaderEntry (r : Json) : Bool :=
  match r with
  | .obj rkvs =>
    match rkvs.lookup "name" with
    | some (.str s) => s != "GameHeader"
    | some _ => true
    | none => false
  | _ => false

/-- A scoreboard document whose `resultSets` is an array containing no entry
named `GameHeader`. -/
def noGameHeaderRS (sb : Json) : Bool :=
  match sb with
  | .obj kvs =>
    match kvs.lookup "resultSets" with
    | some (.arr rs) => rs.all notGameHeaderEntry
    | _ => false
  | _ => false

/-- A concrete scoreboard document with result sets but no GameHeader. -/
def noHeaderScoreboard : Json :=
  Json.obj [("resultSets", Json.arr [Json.obj [("name", Json.str "LineScore")]])]

/-- A document (a dict) that lacks the `boxScoreTraditional` key. -/
def lacksBox : Json → Bool
  | .obj kvs => (kvs.lookup "boxScoreTraditional").isNone
  | _ => false

/-- The same document with a `boxScoreTraditional` entry `v` put back in
front (inverse of removing the key). -/
def insertBox (v : Json) : Json → Json
  | .obj kvs => .obj (("boxScoreTraditional", v) :: kvs)
  | j => j

/-- A truthy Python dict: a non-empty JSON object. -/
def isNonemptyObj : Json → Bool
  | .obj kvs => !kvs.isEmpty
  | _ => false

/-- Sufficient condition for extract_team_info to emit both team records:
`boxScoreTraditional` is an object whose `homeTeam` and `awayTeam` are
non-empty objects. -/
def teamInfoReady (data : Json) : Bool :=
  match data with
  | .obj kvs =>
    match kvs.lookup "boxScoreTraditional" with
    | some (.obj bkvs) =>
      isNonemptyObj ((bkvs.lookup "homeTeam").getD .null) &&
      isNonemptyObj ((bkvs.lookup "awayTeam").getD .null)
    | _ => false
  | _ => false

/-- Sufficient condition for extract_team_statistics (`field` =
`"statistics"`) or extract_team_starters (`field` = `"starters"`) to emit
both team records: `boxScoreTraditional` is an object, each team is an
object, and each team's `field` entry is a non-empty object. -/
def teamFieldReady (field : String) (data : Json) : Bool :=
  match data with
  | .obj kvs =>
    match kvs.lookup "boxScoreTraditional" with
    | some (.obj bkvs) =>
      (match (bkvs.lookup "homeTeam").getD .null with
       | .obj hkvs => isNonemptyObj ((hkvs.lookup field).getD .null)
       | _ => false) &&
      (match (bkvs.lookup "awayTeam").getD .null with
       | .obj akvs => isNonemptyObj ((akvs.lookup field).getD .null)
       | _ => false)
    | _ => false
  | _ => false

/-- The record value extract_team_info builds for one team given as the
object `tkvs`. -/
def teamInfoRec (game_id : Json) (tkvs : List (String × Json)) (is_home : Bool)
    (sf : String) (gd : Json) : Record :=
  [("block_type", Json.str "team_info"), ("game_id", game_id),
   ("team_id", (tkvs.lookup "teamId").getD .null),
   ("team_city", (tkvs.lookup "teamCity").getD .null),
   ("team_name", (tkvs.lookup "teamName").getD .null),
   ("team_tricode", (tkvs.lookup "teamTricode").getD .null),
   ("team_slug", (tkvs.lookup "teamSlug").getD .null),
   ("is_home_team", Json.bool is_home),
   ("source_file", Json.str sf), ("game_date", gd)]

/-- The nineteen shared statistic fields drawn from the stats object
`skvs`. -/
def tsFieldsOf (skvs : List (String × Json)) : List (String × Json) :=
  [("minutes", (skvs.lookup "minutes").getD .null),
   ("field_goals_made", (skvs.lookup "fieldGoalsMade").getD .null),
   ("field_goals_attempted", (skvs.lookup "fieldGoalsAttempted").getD .null),
   ("field_goals_percentage", (skvs.lookup "fieldGoalsPercentage").getD .null),
   ("three_pointers_made", (skvs.lookup "threePointersMade").getD .null),
   ("three_pointers_attempted", (skvs.lookup "threePointersAttempted").getD .null),
   ("three_pointers_percentage", (skvs.lookup "threePointersPercentage").getD .null),
   ("free_throws_made", (skvs.lookup "freeThrowsMade").getD .null),
   ("free_throws_attempted", (skvs.lookup "freeThrowsAttempted").getD .null),
   ("free_throws_percentage", (skvs.lookup "freeThrowsPercentage").getD .null),
   ("rebounds_offensive", (skvs.lookup "reboundsOffensive").getD .null),
   ("rebounds_defensive", (skvs.lookup "reboundsDefensive").getD .null),
   ("rebounds_total", (skvs.lookup "reboundsTotal").getD .null),
   ("assists", (skvs.lookup "assists").getD .null),
   ("steals", (skvs.lookup "steals").getD .null),
   ("blocks", (skvs.lookup "blocks").getD .null),
   ("turnovers", (skvs.lookup "turnovers").getD .null),
   ("fouls_personal", (skvs.lookup "foulsPersonal").getD .null),
   ("points", (skvs.lookup "points").getD .null)]

/-- The record extract_team_statistics builds for one team object `tkvs`
with stats object `skvs`. -/
def teamStatsRec (game_id : Json) (tkvs skvs : List (String × Json))
    (is_home : Bool) (sf : String) (gd : Json) : Record :=
  [("block_type", Json.str "team_statistics"), ("game_id", game_id),
   ("team_id", (tkvs.lookup "teamId").getD .null),
   ("is_home_team", Json.bool is_home)] ++ tsFieldsOf skvs ++
  [("plus_minus_points", (skvs.lookup "plusMinusPoints").getD .null),
   ("source_file", Json.str sf), ("game_date", gd)]

/-- The record extract_team_starters builds for one team object `tkvs` with
starters object `skvs`. -/
def teamStartersRec (game_id : Json) (tkvs skvs : List (String × Json))
    (is_home : Bool) (sf : String) (gd : Json) : Record :=
  [("block_type", Json.str "team_starters"), ("game_id", game_id),
   ("team_id", (tkvs.lookup "teamId").getD .null),
   ("is_home_team", Json.bool is_home)] ++ tsFieldsOf skvs ++
  [("source_file", Json.str sf), ("game_date", gd)]

/-- The two home roster entries of the fixture document. -/
def homeTeamPlayers : List Json :=
  [Json.obj [("personId", Json.num 201939),
             ("statistics", Json.obj [("points", Json.num 30)])],
   Json.obj [("personId", Json.num 203110),
             ("statistics", Json.obj [("points", Json.num 18)])]]

/-- The single away roster entry of the fixture document. -/
def awayTeamPlayers : List Json :=
  [Json.obj [("personId", Json.num 2544),
             ("statistics", Json.obj [("points", Json.num 25)])]]

/-- The entries of the fixture home-team object. -/
def homeTeamKvs : List (String × Json) :=
  [("teamId", Json.num 1610612744), ("teamCity", Json.str "Golden State"),
   ("teamName", Json.str "Warriors"), ("teamTricode", Json.str "GSW"),
   ("teamSlug", Json.str "warriors"),
   ("statistics", Json.obj [("minutes", Json.str "240:00"),
                            ("points", Json.num 120)]),
   ("starters", Json.obj [("minutes", Json.str "155:00"),
                          ("points", Json.num 80)]),
   ("players", Json.arr homeTeamPlayers)]

/-- The entries of the fixture away-team object. -/
def awayTeamKvs : List (String × Json) :=
  [("teamId", Json.num 1610612747), ("teamCity", Json.str "Los Angeles"),
   ("teamName", Json.str "Lakers"), ("teamTricode", Json.str "LAL"),
   ("teamSlug", Json.str "lakers"),
   ("statistics", Json.obj [("minutes", Json.str "240:00"),
                            ("points", Json.num 110)]),
   ("starters", Json.obj [("minutes", Json.str "160:00"),
                          ("points", Json.num 75)]),
   ("players", Json.arr awayTeamPlayers)]

/-- The entries of the fixture boxscore object. -/
def boxKvs : List (String × Json) :=
  [("gameId", Json.str "0022400752"),
   ("awayTeamId", Json.num 1610612747), ("homeTeamId", Json.num 1610612744),
   ("homeTeam", Json.obj homeTeamKvs), ("awayTeam", Json.obj awayTeamKvs)]

/-- The entries of the complete fixture document. -/
def fullGameKvs : List (String × Json) :=
  [("meta", Json.obj [("version", Json.num 1), ("request", Json.str "url"),
                      ("time", Json.str "2025-04-05")]),
   ("boxScoreTraditional", Json.obj boxKvs)]

/-- A complete fixture document: meta section plus a boxscore with both
teams, their statistics, starters and rosters (2 home players, 1 away). -/
def fullGameDoc : Json := Json.obj fullGameKvs

/-- A roster entry for which the player-record dict literal evaluates
without raising: an object whose `statistics` value is an object. -/
def playerStatsReady (p : Json) : Bool :=
  match p with
  | .obj pkvs =>
    match (pkvs.lookup "statistics").getD .null with
    | .obj _ => true
    | _ => false
  | _ => false

/-- The record extract_player_statistics builds for roster entry `pkvs` (at
index `i`) whose statistics object is `skvs`. -/
def playerRec (game_id team_id : Json) (is_home : Bool) (i : Nat)
    (pkvs skvs : List (String × Json)) (sf : String) (gd : Json) : Record :=
  [("block_type", Json.str "player_statistics"), ("game_id", game_id),
   ("team_id", team_id), ("is_home_team", Json.bool is_home),
   ("player_index", Json.num i),
   ("person_id", (pkvs.lookup "personId").getD .null),
   ("first_name", (pkvs.lookup "firstName").getD .null),
   ("family_name", (pkvs.lookup "familyName").getD .null),
   ("name_i", (pkvs.lookup "nameI").getD .null),
   ("player_slug", (pkvs.lookup "playerSlug").getD .null),
   ("position", (pkvs.lookup "position").getD .null),
   ("comment", (pkvs.lookup "comment").getD .null),
   ("jersey_num", (pkvs.lookup "jerseyNum").getD .null)] ++ tsFieldsOf skvs ++
  [("plus_minus_points", (skvs.lookup "plusMinusPoints").getD .null),
   ("source_file", Json.str sf), ("game_date", gd)]

/-- The home and away roster lengths of a document, read off the same nested
paths the extractor iterates. -/
def rosterLengths (data : Json) : Except Unit (Nat × Nat) := do
  let b ← pyIndex data "boxScoreTraditional"
  let h ← pyIndex b "homeTeam"
  let hp ← pyIndex h "players"
  let hl ← pyIterate hp
  let a ← pyIndex b "awayTeam"
  let ap ← pyIndex a "players"
  let al ← pyIterate ap
  .ok (hl.length, al.length)

/-- A document whose home roster has one entry (H = 1) lacking the
`statistics` key, and an empty away roster (A = 0). -/
def statlessPlayerDoc : Json := Json.obj [("boxScoreTraditional", Json.obj [
  ("gameId", Json.str "0022400001"),
  ("homeTeam", Json.obj [("teamId", Json.num 1),
    ("players", Json.arr [Json.obj [("personId", Json.num 7)]])]),
  ("awayTeam", Json.obj [("teamId", Json.num 2),
    ("players", Json.arr [])])])]

/-- Record `r` carries the document's provenance pair. -/
def stamped (sf : String) (gd : Json) (r : Record) : Prop :=
  r.lookup "source_file" = some (Json.str sf) ∧
  r.lookup "game_date" = some gd

/-- The blob name of the fixture document in the partitioned layout. -/
def fullBlobName : String := "year=2025/month=04/day=05/0022400752.parquet"

/-- The records process_single_file produces for the fixture document. -/
def fullGameRecords : List Record :=
  extract_meta_data fullGameDoc fullBlobName (gameDateOf fullBlobName) ++
  extract_game_header fullGameDoc fullBlobName (gameDateOf fullBlobName) ++
  extract_team_info fullGameDoc fullBlobName (gameDateOf fullBlobName) ++
  extract_team_statistics fullGameDoc fullBlobName (gameDateOf fullBlobName) ++
  extract_team_starters fullGameDoc fullBlobName (gameDateOf fullBlobName) ++
  extract_player_statistics fullGameDoc fullBlobName (gameDateOf fullBlobName)

/-- The home-team object (truthy statistics included) of a document whose
awayTeam key is absent. -/
def homeOnlyTeamKvs : List (String × Json) :=
  [("teamId", Json.num 1610612744),
   ("statistics", Json.obj [("points", Json.num 100)])]

/-- The boxscore entries of that document: gameId and homeTeam present, no
awayTeam key. -/
def awayMissingBoxKvs : List (String × Json) :=
  [("gameId", Json.str "0022400900"),
   ("homeTeam", Json.obj homeOnlyTeamKvs)]

/-- The top-level entries of the missing-awayTeam document. -/
def awayMissingKvs : List (String × Json) :=
  [("boxScoreTraditional", Json.obj awayMissingBoxKvs)]

/-- A document with a complete home side but no awayTeam key. -/
def awayMissingDoc : Json := Json.obj awayMissingKvs

@[simp] theorem ok_bind {α β : Type} (a : α) (f : α → Except Unit β) :
    (Except.ok a : Except Unit α) >>= f = f a := rfl

@[simp] theorem error_bind {α β : Type} (f : α → Except Unit β) :
    (Except.error () : Except Unit α) >>= f = Except.error () := rfl

theorem pySlices_nil {α : Type} (n : Nat) : pySlices n ([] : List α) = [] := by
  have h : (n - 1) / n = 0 := by
    cases n with
    | zero => rfl
    | succ m => exact Nat.div_eq_of_lt (by omega)
  simp [pySlices, pyRangeBy, h]

theorem pySlices_cons {α : Type} {n : Nat} (hn : 0 < n) (l : List α)
    (hl : l ≠ []) : pySlices n l = l.take n :: pySlices n (l.drop n) := by
  have hlen : 1 ≤ l.length := by
    cases l with
    | nil => exact absurd rfl hl
    | cons a t => simp
  have hcount : (l.length + n - 1) / n = ((l.drop n).length + n - 1) / n + 1 := by
    rw [List.length_drop]
    rcases le_or_lt l.length n with hc | hc
    · have h1 : (l.length + n - 1) / n = 1 :=
        Nat.div_eq_of_lt_le (by omega) (by omega)
      have h2 : l.length - n = 0 := by omega
      have h3 : (0 + n - 1) / n = 0 := Nat.div_eq_of_lt (by omega)
      rw [h1, h2, h3]
    · have h4 : l.length + n - 1 = ((l.length - n) + n - 1) + n := by omega
      rw [h4, Nat.add_div_right _ hn]
  simp only [pySlices, pyRangeBy, List.map_map]
  rw [hcount, List.range_succ_eq_map]
  simp only [List.map_cons, List.map_map, Function.comp, Nat.zero_mul,
    List.drop_zero]
  congr 1
  apply List.map_congr_left
  intro j _
  simp only [Function.comp_apply]
  rw [List.drop_drop, Nat.succ_mul, Nat.add_comm]

theorem pySlices_flatten {α : Type} {n : Nat} (hn : 0 < n) (l : List α) :
    (pySlices n l).flatten = l := by
  have aux : ∀ (k : Nat) (m : List α), m.length ≤ k → (pySlices n m).flatten = m := by
    intro k
    induction k with
    | zero =>
      intro m hm
      have hnil : m = [] := by
        cases m with
        | nil => rfl
        | cons a t => simp at hm
      rw [hnil, pySlices_nil]
      rfl
    | succ k ih =>
      intro m hm
      rcases m with _ | ⟨a, t⟩
      · rw [pySlices_nil]; rfl
      · rw [pySlices_cons hn _ (by simp), List.flatten_cons,
           ih _ (by simp at hm ⊢; omega)]
        exact List.take_append_drop n (a :: t)
  exact aux l.length l le_rfl

theorem pySlices_length_le {α : Type} (n : Nat) (l : List α) :
    ∀ b ∈ pySlices n l, b.length ≤ n := by
  intro b hb
  simp only [pySlices, List.map_map, List.mem_map] at hb
  obtain ⟨i, _, rfl⟩ := hb
  simp [List.length_take]

theorem pySlices_dropLast_length {α : Type} {n : Nat} (hn : 0 < n)
    (l : List α) : ∀ b ∈ (pySlices n l).dropLast, b.length = n := by
  have aux : ∀ (k : Nat) (m : List α), m.length ≤ k →
      ∀ b ∈ (pySlices n m).dropLast, b.length = n := by
    intro k
    induction k with
    | zero =>
      intro m hm b hb
      have hnil : m = [] := by
        cases m with
        | nil => rfl
        | cons a t => simp at hm
      rw [hnil, pySlices_nil] at hb
      simp at hb
    | succ k ih =>
      intro m hm b hb
      rcases m with _ | ⟨a, t⟩
      · rw [pySlices_nil] at hb; simp at hb
      · rw [pySlices_cons hn _ (by simp)] at hb
        rcases hrest : pySlices n ((a :: t).drop n) with _ | ⟨r, rs⟩
        · rw [hrest] at hb; simp at hb
        · rw [hrest, List.dropLast_cons₂] at hb
          rcases List.mem_cons.mp hb with hba | hbb
          · have hne : (a :: t).drop n ≠ [] := by
              intro hcontra
              rw [hcontra, pySlices_nil] at hrest
              exact (List.cons_ne_nil r rs) hrest.symm
            have hlt : n < (a :: t).length := by
              by_contra hc
              exact hne (List.drop_eq_nil_iff.mpr (by omega))
            rw [hba]
            simp only [List.length_take]
            omega
          · exact ih ((a :: t).drop n) (by simp at hm ⊢; omega) b
              (by rw [hrest]; exact hbb)
  exact aux l.length l le_rfl

/-- C8: batch_config partitions the game-id list into contiguous batches of
size 4 whose in-order concatenation equals the original list, only the last
batch being possibly shorter than 4; a list of 10 game ids yields exactly 3
batches of sizes 4, 4 and 2. -/
theorem batch_config_partitions (sb : Json) (gids : List Json)
    (attempt : Json → Nat → Bool) (h : get_game_ids sb = Except.ok gids) :
    batch_config sb attempt =
      Except.ok ("Processing complete", pySlices 4 gids,
        ((pySlices 4 gids).map
          (fun batch => process_game_batch attempt batch)).flatten) ∧
    (pySlices 4 gids).flatten = gids ∧
    (∀ b ∈ (pySlices 4 gids).dropLast, b.length = 4) ∧
    (∀ b ∈ pySlices 4 gids, b.length ≤ 4) ∧
    (gids.length = 10 → (pySlices 4 gids).map List.length = [4, 4, 2]) := by
  refine ⟨?_, pySlices_flatten (by omega) gids,
    pySlices_dropLast_length (by omega) gids, pySlices_length_le 4 gids, ?_⟩
  · simp [batch_config, h]
  · intro h10
    have hr : pyRangeBy 10 4 = [0, 4, 8] := rfl
    simp only [pySlices, h10, hr, List.map_cons, List.map_nil, List.map_map,
      Function.comp_apply]
    simp [List.length_take, List.length_drop, h10]

/-- Witness for C8 at a concrete ten-game scoreboard document. -/
theorem batch_config_partitions_witness :
    batch_config tenGameScoreboard (fun _ _ => true) =
      Except.ok ("Processing complete", pySlices 4 tenGameIds,
        ((pySlices 4 tenGameIds).map
          (fun batch => process_game_batch (fun _ _ => true) batch)).flatten) ∧
    (pySlices 4 tenGameIds).map List.length = [4, 4, 2] :=
  ⟨(batch_config_partitions tenGameScoreboard tenGameIds
      (fun _ _ => true) rfl).1,
   (batch_config_partitions tenGameScoreboard tenGameIds
      (fun _ _ => true) rfl).2.2.2.2 rfl⟩

/-- C6: insert_to_bigquery cuts its input into consecutive 10,000-record
chunks, attempts one load job per chunk independently of the outcomes of the
other chunks (so a failed chunk never prevents a later chunk from being
attempted, and nothing is raised), issues exactly 3 jobs of sizes
10,000/10,000/5,000 for 25,000 records, and issues none for empty input. -/
theorem insert_to_bigquery_chunking (f g : List Record → Bool)
    (data : List Record) :
    ((insert_to_bigquery f data).map Prod.fst = pySlices 10000 data) ∧
    ((insert_to_bigquery f data).map Prod.fst =
      (insert_to_bigquery g data).map Prod.fst) ∧
    (((insert_to_bigquery f data).map Prod.fst).flatten = data) ∧
    (data.length = 25000 →
      (insert_to_bigquery f data).map (fun c => c.1.length) =
        [10000, 10000, 5000]) ∧
    insert_to_bigquery f ([] : List Record) = [] := by
  have hfst : ∀ (ld : List Record → Bool),
      (insert_to_bigquery ld data).map Prod.fst = pySlices 10000 data := by
    intro ld
    rcases data with _ | ⟨a, t⟩
    · rw [pySlices_nil]; rfl
    · simp [insert_to_bigquery, pySlices, List.map_map, Function.comp]
  refine ⟨hfst f, (hfst f).trans (hfst g).symm, ?_, ?_, rfl⟩
  · rw [hfst f]
    exact pySlices_flatten (by omega) data
  · intro h25
    have hmm : (insert_to_bigquery f data).map (fun c => c.1.length) =
        ((insert_to_bigquery f data).map Prod.fst).map List.length := by
      simp [List.map_map, Function.comp]
    rw [hmm, hfst f]
    have hr : pyRangeBy 25000 10000 = [0, 10000, 20000] := rfl
    simp only [pySlices, h25, hr, List.map_cons, List.map_nil, List.map_map,
      Function.comp_apply]
    simp [List.length_take, List.length_drop, h25]

/-- Witness for C6 at a concrete 25,000-record input and at the empty
input. -/
theorem insert_to_bigquery_chunking_witness :
    ((insert_to_bigquery (fun _ => true)
        (List.replicate 25000 ([] : Record))).map (fun c => c.1.length) =
      [10000, 10000, 5000]) ∧
    insert_to_bigquery (fun _ => true) ([] : List Record) = [] :=
  ⟨(insert_to_bigquery_chunking (fun _ => true) (fun _ => false)
      (List.replicate 25000 ([] : Record))).2.2.2.1
      (by rw [List.length_replicate]),
   (insert_to_bigquery_chunking (fun _ => true) (fun _ => false)
      ([] : List Record)).2.2.2.2⟩

/-- C4: process_game_with_retry performs at most 3 attempts, sleeping
`retry_delay * k` (= 3·k, linear backoff) after the k-th failed attempt;
it returns `True` exactly when one of the (at most three) attempts
succeeds and `False` — it cannot raise, being total — when all three
fail; a fail/fail/succeed run uploads exactly one snapshot and returns
`True`; and process_game_batch attempts every game of the batch whatever
the individual results are. -/
theorem process_game_with_retry_policy (gid : Json) (attempt : Nat → Bool)
    (batchAttempt : Json → Nat → Bool) (batch : List Json) :
    ((process_game_with_retry gid attempt).requests.length ≤ 3) ∧
    ((process_game_with_retry gid attempt).success =
      (attempt 0 || (attempt 1 || attempt 2))) ∧
    ((process_game_with_retry gid attempt).sleeps =
      (List.range (leadingFailures attempt)).map (fun k => 3 * (k + 1))) ∧
    ((attempt 0 = false ∧ attempt 1 = false ∧ attempt 2 = false) →
      process_game_with_retry gid attempt =
        { success := false, uploads := 0, sleeps := [3, 6, 9],
          requests := [boxscoreRequest gid, boxscoreRequest gid,
                       boxscoreRequest gid] }) ∧
    ((attempt 0 = false ∧ attempt 1 = false ∧ attempt 2 = true) →
      process_game_with_retry gid attempt =
        { success := true, uploads := 1, sleeps := [3, 6],
          requests := [boxscoreRequest gid, boxscoreRequest gid,
                       boxscoreRequest gid] }) ∧
    ((process_game_batch batchAttempt batch).map Prod.fst = batch) := by
  have hb : (process_game_batch batchAttempt batch).map Prod.fst = batch := by
    have hid : (Prod.fst ∘ fun g =>
        (g, process_game_with_retry g (batchAttempt g))) = id := by
      funext g; rfl
    rw [process_game_batch, List.map_map, hid, List.map_id]
  cases h0 : attempt 0 <;> cases h1 : attempt 1 <;> cases h2 : attempt 2 <;>
    simp [process_game_with_retry, retryGo, leadingFailures, h0, h1, h2, hb,
      List.range_succ]

/-- Witness for C4: attempts 1 and 2 fail and attempt 3 succeeds at a
concrete game id — one upload, result `True`, sleeps 3 then 6. -/
theorem process_game_with_retry_policy_witness :
    process_game_with_retry (Json.str "0022400752") (fun i => decide (i = 2)) =
      { success := true, uploads := 1, sleeps := [3, 6],
        requests := [boxscoreRequest (Json.str "0022400752"),
                     boxscoreRequest (Json.str "0022400752"),
                     boxscoreRequest (Json.str "0022400752")] } :=
  (process_game_with_retry_policy (Json.str "0022400752")
    (fun i => decide (i = 2)) (fun _ _ => true) []).2.2.2.2.1 ⟨rfl, rfl, rfl⟩

/-- C7 counterexample: the scoreboard GET of get_nba_scoreboard is issued
with no timeout at all — the source passes headers, params and proxies to
`requests.get` but no `timeout` keyword — so not every upstream fetch
carries a 30-second timeout. -/
theorem scoreboard_timeout_counterexample :
    (get_nba_scoreboard "2025-04-04" (fun _ => true)).requests =
      [scoreboardRequest "2025-04-04"] ∧
    (scoreboardRequest "2025-04-04").timeout ≠ some 30 ∧
    (scoreboardRequest "2025-04-04").timeout = none :=
  ⟨rfl, fun h => Option.noConfusion h, rfl⟩

theorem retryGo_requests_mem (req : HttpRequest) (attempt : Nat → Bool)
    (delay : Nat) : ∀ (fuel rc ups : Nat) (sleeps : List Nat)
    (reqs : List HttpRequest) (r : HttpRequest),
    r ∈ (retryGo req attempt delay fuel rc ups sleeps reqs).2.2.2 →
    r ∈ reqs ∨ r = req := by
  intro fuel
  induction fuel with
  | zero => intro rc ups sleeps reqs r h; exact Or.inl h
  | succ fuel ih =>
    intro rc ups sleeps reqs r h
    cases ha : attempt rc with
    | true =>
      rw [retryGo, if_pos ha] at h
      rcases List.mem_append.mp h with hl | hr
      · exact Or.inl hl
      · exact Or.inr (List.mem_singleton.mp hr)
    | false =>
      rw [retryGo, if_neg (by simp [ha])] at h
      rcases ih _ _ _ _ r h with hl | hr
      · rcases List.mem_append.mp hl with hll | hlr
        · exact Or.inl hll
        · exact Or.inr (List.mem_singleton.mp hlr)
      · exact Or.inr hr

theorem get_nba_scoreboard_requests (d : String) (attempt : Nat → Bool) :
    (get_nba_scoreboard d attempt).requests =
      (retryGo (scoreboardRequest d) attempt 2 3 0 0 [] []).2.2.2 := by
  unfold get_nba_scoreboard
  split
  rename_i rc ups sleeps reqs heq
  rw [heq]
  split <;> rfl

/-- C7 amended: the boxscore GET of process_game_with_retry carries a
30-second timeout on every attempt, while the scoreboard GET of
get_nba_scoreboard is issued without any timeout on every attempt. -/
theorem request_timeouts (gid : Json) (attempt : Nat → Bool) (d : String)
    (sAttempt : Nat → Bool) :
    (∀ r ∈ (process_game_with_retry gid attempt).requests,
      r.timeout = some 30) ∧
    (∀ r ∈ (get_nba_scoreboard d sAttempt).requests, r.timeout = none) := by
  constructor
  · intro r hr
    rcases retryGo_requests_mem (boxscoreRequest gid) attempt 3 3 0 0 [] [] r
        hr with h | h
    · simp at h
    · rw [h]; rfl
  · intro r hr
    rw [get_nba_scoreboard_requests] at hr
    rcases retryGo_requests_mem (scoreboardRequest d) sAttempt 2 3 0 0 [] [] r
        hr with h | h
    · simp at h
    · rw [h]; rfl

/-- Witness for C7's amended statement at concrete requests issued by
concrete runs of both fetch loops. -/
theorem request_timeouts_witness :
    (boxscoreRequest (Json.str "0022400752")).timeout = some 30 ∧
    (scoreboardRequest "2025-04-04").timeout = none :=
  ⟨(request_timeouts (Json.str "0022400752") (fun _ => false) "2025-04-04"
      (fun _ => false)).1 (boxscoreRequest (Json.str "0022400752"))
      (List.Mem.head _),
   (request_timeouts (Json.str "0022400752") (fun _ => false) "2025-04-04"
      (fun _ => false)).2 (scoreboardRequest "2025-04-04")
      (List.Mem.head _)⟩

theorem findGameHeader_all_none (rs : List Json)
    (h : rs.all notGameHeaderEntry = true) : findGameHeader rs = .ok none := by
  induction rs with
  | nil => rfl
  | cons r rest ih =>
    simp only [List.all_cons, Bool.and_eq_true] at h
    obtain ⟨h1, h2⟩ := h
    cases r with
    | obj rkvs =>
      rw [findGameHeader]
      cases hlook : rkvs.lookup "name" with
      | none => simp [notGameHeaderEntry, hlook] at h1
      | some v =>
        cases v with
        | str s =>
          simp only [notGameHeaderEntry, hlook] at h1
          simp [pyIndex, hlook, bne_iff_ne.mp h1, ih h2]
        | null => simp [pyIndex, hlook, ih h2]
        | bool b => simp [pyIndex, hlook, ih h2]
        | num n => simp [pyIndex, hlook, ih h2]
        | arr xs => simp [pyIndex, hlook, ih h2]
        | obj o => simp [pyIndex, hlook, ih h2]
    | null => simp [notGameHeaderEntry] at h1
    | bool b => simp [notGameHeaderEntry] at h1
    | num n => simp [notGameHeaderEntry] at h1
    | str s => simp [notGameHeaderEntry] at h1
    | arr xs => simp [notGameHeaderEntry] at h1

/-- C10: when the scoreboard's `resultSets` contains no `GameHeader` entry,
get_game_ids returns the empty list and batch_config creates zero batches,
issues no boxscore fetches, and still returns the success message. -/
theorem no_game_header_noop (sb : Json) (attempt : Json → Nat → Bool)
    (h : noGameHeaderRS sb = true) :
    get_game_ids sb = Except.ok [] ∧
    batch_config sb attempt =
      Except.ok ("Processing complete", [], []) := by
  have hga : get_game_ids sb = Except.ok [] := by
    cases sb with
    | obj kvs =>
      simp only [noGameHeaderRS] at h
      cases hrs : kvs.lookup "resultSets" with
      | none => rw [hrs] at h; exact absurd h (by simp)
      | some v =>
        rw [hrs] at h
        cases v with
        | arr rs =>
          simp [get_game_ids, pyIndex, hrs, pyIterate,
            findGameHeader_all_none rs h]
        | null => exact absurd h (by simp)
        | bool b => exact absurd h (by simp)
        | num n => exact absurd h (by simp)
        | str s => exact absurd h (by simp)
        | obj o => exact absurd h (by simp)
    | null => exact absurd h (by simp [noGameHeaderRS])
    | bool b => exact absurd h (by simp [noGameHeaderRS])
    | num n => exact absurd h (by simp [noGameHeaderRS])
    | str s => exact absurd h (by simp [noGameHeaderRS])
    | arr xs => exact absurd h (by simp [noGameHeaderRS])
  refine ⟨hga, ?_⟩
  simp [batch_config, hga, pySlices_nil]

/-- Witness for C10 at a concrete GameHeader-free scoreboard document. -/
theorem no_game_header_noop_witness :
    get_game_ids noHeaderScoreboard = Except.ok [] ∧
    batch_config noHeaderScoreboard (fun _ _ => true) =
      Except.ok ("Processing complete", [], []) :=
  no_game_header_noop noHeaderScoreboard (fun _ _ => true) rfl

/-- On a document lacking `boxScoreTraditional`, the five boxscore-rooted
extractors return the empty list, while extract_meta_data returns exactly
what it returns on the same document with any `boxScoreTraditional` value
present. -/
theorem extractors_without_boxscore (data v : Json) (sf : String) (gd : Json)
    (h : lacksBox data = true) :
    extract_game_header data sf gd = [] ∧
    extract_team_info data sf gd = [] ∧
    extract_team_statistics data sf gd = [] ∧
    extract_team_starters data sf gd = [] ∧
    extract_player_statistics data sf gd = [] ∧
    extract_meta_data (insertBox v data) sf gd = extract_meta_data data sf gd := by
  cases data with
  | obj kvs =>
    simp only [lacksBox, Option.isNone_iff_eq_none] at h
    refine ⟨?_, ?_, ?_, ?_, ?_, ?_⟩
    · simp [extract_game_header, pyGet, h, truthy]
    · simp [extract_team_info, pyGet, h]
    · simp [extract_team_statistics, pyGet, h]
    · simp [extract_team_starters, pyGet, h]
    · simp [extract_player_statistics, pyGet, h]
    · simp [extract_meta_data, insertBox, pyGet, List.lookup]
  | null => simp [lacksBox] at h
  | bool b => simp [lacksBox] at h
  | num n => simp [lacksBox] at h
  | str s => simp [lacksBox] at h
  | arr xs => simp [lacksBox] at h

/-- C5 counterexample: on the document `{}` — a legitimate input — each
team-scoped extractor returns zero records, not two, so the claim fails as
stated for arbitrary input documents. -/
theorem team_extractors_counterexample :
    (extract_team_info (Json.obj []) "f" Json.null).length ≠ 2 ∧
    (extract_team_statistics (Json.obj []) "f" Json.null).length ≠ 2 ∧
    (extract_team_starters (Json.obj []) "f" Json.null).length ≠ 2 := by
  refine ⟨?_, ?_, ?_⟩ <;> decide

theorem teamInfoRecord_obj (game_id : Json) (tkvs : List (String × Json))
    (is_home : Bool) (sf : String) (gd : Json) :
    teamInfoRecord game_id (.obj tkvs) is_home sf gd =
      .ok (teamInfoRec game_id tkvs is_home sf gd) := rfl

theorem isNonemptyObj_eq (j : Json) (h : isNonemptyObj j = true) :
    ∃ tkvs, j = Json.obj tkvs ∧ tkvs.isEmpty = false := by
  cases j with
  | obj kvs => exact ⟨kvs, rfl, by simpa [isNonemptyObj] using h⟩
  | null => simp [isNonemptyObj] at h
  | bool b => simp [isNonemptyObj] at h
  | num n => simp [isNonemptyObj] at h
  | str s => simp [isNonemptyObj] at h
  | arr xs => simp [isNonemptyObj] at h

theorem extract_team_info_pair (kvs bkvs hkvs akvs : List (String × Json))
    (sf : String) (gd : Json)
    (hbst : kvs.lookup "boxScoreTraditional" = some (Json.obj bkvs))
    (hh : (bkvs.lookup "homeTeam").getD .null = Json.obj hkvs)
    (hhne : hkvs.isEmpty = false)
    (ha : (bkvs.lookup "awayTeam").getD .null = Json.obj akvs)
    (hane : akvs.isEmpty = false) :
    extract_team_info (Json.obj kvs) sf gd =
      [teamInfoRec ((bkvs.lookup "gameId").getD .null) hkvs true sf gd,
       teamInfoRec ((bkvs.lookup "gameId").getD .null) akvs false sf gd] := by
  simp [extract_team_info, pyGet, hbst, hh, ha, truthy, hhne, hane,
    teamInfoRecord_obj]

theorem teamStatsFields_obj (skvs : List (String × Json)) :
    teamStatsFields (.obj skvs) = .ok (tsFieldsOf skvs) := rfl

theorem teamStatsRecord_obj (game_id : Json) (tkvs skvs : List (String × Json))
    (is_home : Bool) (sf : String) (gd : Json) :
    teamStatsRecord game_id (.obj tkvs) (.obj skvs) is_home sf gd =
      .ok (teamStatsRec game_id tkvs skvs is_home sf gd) := rfl

theorem teamStartersRecord_obj (game_id : Json)
    (tkvs skvs : List (String × Json)) (is_home : Bool) (sf : String)
    (gd : Json) :
    teamStartersRecord game_id (.obj tkvs) (.obj skvs) is_home sf gd =
      .ok (teamStartersRec game_id tkvs skvs is_home sf gd) := rfl

theorem extract_team_statistics_pair (kvs bkvs hkvs hskvs akvs askvs :
    List (String × Json)) (sf : String) (gd : Json)
    (hbst : kvs.lookup "boxScoreTraditional" = some (Json.obj bkvs))
    (hh : (bkvs.lookup "homeTeam").getD .null = Json.obj hkvs)
    (hhs : (hkvs.lookup "statistics").getD .null = Json.obj hskvs)
    (hhsne : hskvs.isEmpty = false)
    (ha : (bkvs.lookup "awayTeam").getD .null = Json.obj akvs)
    (has : (akvs.lookup "statistics").getD .null = Json.obj askvs)
    (hasne : askvs.isEmpty = false) :
    extract_team_statistics (Json.obj kvs) sf gd =
      [teamStatsRec ((bkvs.lookup "gameId").getD .null) hkvs hskvs true sf gd,
       teamStatsRec ((bkvs.lookup "gameId").getD .null) akvs askvs false sf gd] := by
  simp [extract_team_statistics, pyGet, hbst, hh, hhs, ha, has, truthy,
    hhsne, hasne, teamStatsRecord_obj]

theorem extract_team_starters_pair (kvs bkvs hkvs hskvs akvs askvs :
    List (String × Json)) (sf : String) (gd : Json)
    (hbst : kvs.lookup "boxScoreTraditional" = some (Json.obj bkvs))
    (hh : (bkvs.lookup "homeTeam").getD .null = Json.obj hkvs)
    (hhs : (hkvs.lookup "starters").getD .null = Json.obj hskvs)
    (hhsne : hskvs.isEmpty = false)
    (ha : (bkvs.lookup "awayTeam").getD .null = Json.obj akvs)
    (has : (akvs.lookup "starters").getD .null = Json.obj askvs)
    (hasne : askvs.isEmpty = false) :
    extract_team_starters (Json.obj kvs) sf gd =
      [teamStartersRec ((bkvs.lookup "gameId").getD .null) hkvs hskvs true sf gd,
       teamStartersRec ((bkvs.lookup "gameId").getD .null) akvs askvs false sf gd] := by
  simp [extract_team_starters, pyGet, hbst, hh, hhs, ha, has, truthy,
    hhsne, hasne, teamStartersRecord_obj]

/-- C5 amended: each team-scoped extractor returns exactly two records —
first home (`is_home_team = True`), then away (`is_home_team = False`) —
for every document in which `boxScoreTraditional` is an object and the two
teams are present as the extractor requires them: non-empty team objects
for team_info; team objects carrying a non-empty `statistics` (resp.
`starters`) object for team_statistics (resp. team_starters).  On other
documents the extractor can return fewer records (see the counterexample),
so the original unconditional claim is false. -/
theorem team_extractors_two_records (data : Json) (sf : String) (gd : Json) :
    (teamInfoReady data = true →
      ∃ r1 r2, extract_team_info data sf gd = [r1, r2] ∧
        r1.lookup "is_home_team" = some (Json.bool true) ∧
        r2.lookup "is_home_team" = some (Json.bool false)) ∧
    (teamFieldReady "statistics" data = true →
      ∃ r1 r2, extract_team_statistics data sf gd = [r1, r2] ∧
        r1.lookup "is_home_team" = some (Json.bool true) ∧
        r2.lookup "is_home_team" = some (Json.bool false)) ∧
    (teamFieldReady "starters" data = true →
      ∃ r1 r2, extract_team_starters data sf gd = [r1, r2] ∧
        r1.lookup "is_home_team" = some (Json.bool true) ∧
        r2.lookup "is_home_team" = some (Json.bool false)) := by
  refine ⟨?_, ?_, ?_⟩ <;> intro h
  · cases data with
    | obj kvs =>
      rcases hbst : kvs.lookup "boxScoreTraditional" with _ | bv
      · simp [teamInfoReady, hbst] at h
      · cases bv with
        | obj bkvs =>
          simp only [teamInfoReady, hbst, Bool.and_eq_true] at h
          obtain ⟨h1, h2⟩ := h
          obtain ⟨hkvs, hh, hhne⟩ := isNonemptyObj_eq _ h1
          obtain ⟨akvs, ha, hane⟩ := isNonemptyObj_eq _ h2
          exact ⟨_, _,
            extract_team_info_pair kvs bkvs hkvs akvs sf gd hbst hh hhne ha hane,
            rfl, rfl⟩
        | null => simp [teamInfoReady, hbst] at h
        | bool b => simp [teamInfoReady, hbst] at h
        | num n => simp [teamInfoReady, hbst] at h
        | str s => simp [teamInfoReady, hbst] at h
        | arr xs => simp [teamInfoReady, hbst] at h
    | null => simp [teamInfoReady] at h
    | bool b => simp [teamInfoReady] at h
    | num n => simp [teamInfoReady] at h
    | str s => simp [teamInfoReady] at h
    | arr xs => simp [teamInfoReady] at h
  · cases data with
    | obj kvs =>
      rcases hbst : kvs.lookup "boxScoreTraditional" with _ | bv
      · simp [teamFieldReady, hbst] at h
      · cases bv with
        | obj bkvs =>
          simp only [teamFieldReady, hbst, Bool.and_eq_true] at h
          obtain ⟨h1, h2⟩ := h
          rcases hh : (bkvs.lookup "homeTeam").getD .null with _ | b1 | n1 | s1 | x1 | hkvs <;>
              rw [hh] at h1
          · exact Bool.noConfusion h1
          · exact Bool.noConfusion h1
          · exact Bool.noConfusion h1
          · exact Bool.noConfusion h1
          · exact Bool.noConfusion h1
          · rcases ha : (bkvs.lookup "awayTeam").getD .null with _ | b2 | n2 | s2 | x2 | akvs <;>
                rw [ha] at h2
            · exact Bool.noConfusion h2
            · exact Bool.noConfusion h2
            · exact Bool.noConfusion h2
            · exact Bool.noConfusion h2
            · exact Bool.noConfusion h2
            · obtain ⟨hskvs, hhs, hhsne⟩ := isNonemptyObj_eq _ h1
              obtain ⟨askvs, has, hasne⟩ := isNonemptyObj_eq _ h2
              exact ⟨_, _,
                extract_team_statistics_pair kvs bkvs hkvs hskvs akvs askvs
                  sf gd hbst hh hhs hhsne ha has hasne,
                rfl, rfl⟩
        | null => simp [teamFieldReady, hbst] at h
        | bool b => simp [teamFieldReady, hbst] at h
        | num n => simp [teamFieldReady, hbst] at h
        | str s => simp [teamFieldReady, hbst] at h
        | arr xs => simp [teamFieldReady, hbst] at h
    | null => simp [teamFieldReady] at h
    | bool b => simp [teamFieldReady] at h
    | num n => simp [teamFieldReady] at h
    | str s => simp [teamFieldReady] at h
    | arr xs => simp [teamFieldReady] at h
  · cases data with
    | obj kvs =>
      rcases hbst : kvs.lookup "boxScoreTraditional" with _ | bv
      · simp [teamFieldReady, hbst] at h
      · cases bv with
        | obj bkvs =>
          simp only [teamFieldReady, hbst, Bool.and_eq_true] at h
          obtain ⟨h1, h2⟩ := h
          rcases hh : (bkvs.lookup "homeTeam").getD .null with _ | b1 | n1 | s1 | x1 | hkvs <;>
              rw [hh] at h1
          · exact Bool.noConfusion h1
          · exact Bool.noConfusion h1
          · exact Bool.noConfusion h1
          · exact Bool.noConfusion h1
          · exact Bool.noConfusion h1
          · rcases ha : (bkvs.lookup "awayTeam").getD .null with _ | b2 | n2 | s2 | x2 | akvs <;>
                rw [ha] at h2
            · exact Bool.noConfusion h2
            · exact Bool.noConfusion h2
            · exact Bool.noConfusion h2
            · exact Bool.noConfusion h2
            · exact Bool.noConfusion h2
            · obtain ⟨hskvs, hhs, hhsne⟩ := isNonemptyObj_eq _ h1
              obtain ⟨askvs, has, hasne⟩ := isNonemptyObj_eq _ h2
              exact ⟨_, _,
                extract_team_starters_pair kvs bkvs hkvs hskvs akvs askvs
                  sf gd hbst hh hhs hhsne ha has hasne,
                rfl, rfl⟩
        | null => simp [teamFieldReady, hbst] at h
        | bool b => simp [teamFieldReady, hbst] at h
        | num n => simp [teamFieldReady, hbst] at h
        | str s => simp [teamFieldReady, hbst] at h
        | arr xs => simp [teamFieldReady, hbst] at h
    | null => simp [teamFieldReady] at h
    | bool b => simp [teamFieldReady] at h
    | num n => simp [teamFieldReady] at h
    | str s => simp [teamFieldReady] at h
    | arr xs => simp [teamFieldReady] at h

/-- Witness for C5's amended statement at the complete fixture document. -/
theorem team_extractors_two_records_witness :
    (∃ r1 r2, extract_team_info fullGameDoc "f" Json.null = [r1, r2] ∧
      r1.lookup "is_home_team" = some (Json.bool true) ∧
      r2.lookup "is_home_team" = some (Json.bool false)) ∧
    (∃ r1 r2, extract_team_statistics fullGameDoc "f" Json.null = [r1, r2] ∧
      r1.lookup "is_home_team" = some (Json.bool true) ∧
      r2.lookup "is_home_team" = some (Json.bool false)) ∧
    (∃ r1 r2, extract_team_starters fullGameDoc "f" Json.null = [r1, r2] ∧
      r1.lookup "is_home_team" = some (Json.bool true) ∧
      r2.lookup "is_home_team" = some (Json.bool false)) :=
  ⟨(team_extractors_two_records fullGameDoc "f" Json.null).1 rfl,
   (team_extractors_two_records fullGameDoc "f" Json.null).2.1 rfl,
   (team_extractors_two_records fullGameDoc "f" Json.null).2.2 rfl⟩

theorem playerRecord_obj (game_id team_id : Json) (is_home : Bool) (i : Nat)
    (pkvs skvs : List (String × Json)) (sf : String) (gd : Json)
    (h : (pkvs.lookup "statistics").getD .null = Json.obj skvs) :
    playerRecord game_id team_id is_home i (Json.obj pkvs) sf gd =
      .ok (playerRec game_id team_id is_home i pkvs skvs sf gd) := by
  simp [playerRecord, pyGet, h, teamStatsFields_obj, playerRec]

theorem playerRecord_ready (game_id team_id : Json) (is_home : Bool) (i : Nat)
    (p : Json) (sf : String) (gd : Json) (h : playerStatsReady p = true) :
    ∃ r, playerRecord game_id team_id is_home i p sf gd = .ok r ∧
      r.lookup "player_index" = some (Json.num i) ∧
      r.lookup "is_home_team" = some (Json.bool is_home) ∧
      r.lookup "source_file" = some (Json.str sf) ∧
      r.lookup "game_date" = some gd := by
  cases p with
  | obj pkvs =>
    simp only [playerStatsReady] at h
    rcases hst : (pkvs.lookup "statistics").getD .null with _ | b | n | s | xs | skvs <;>
        rw [hst] at h
    · exact Bool.noConfusion h
    · exact Bool.noConfusion h
    · exact Bool.noConfusion h
    · exact Bool.noConfusion h
    · exact Bool.noConfusion h
    · exact ⟨playerRec game_id team_id is_home i pkvs skvs sf gd,
        playerRecord_obj game_id team_id is_home i pkvs skvs sf gd hst,
        rfl, rfl, rfl, rfl⟩
  | null => exact Bool.noConfusion h
  | bool b => exact Bool.noConfusion h
  | num n => exact Bool.noConfusion h
  | str s => exact Bool.noConfusion h
  | arr xs => exact Bool.noConfusion h

theorem playersLoop_ok (mk : Nat → Json → Except Unit Record)
    (P : Nat → Record → Prop) :
    ∀ (ps : List Json) (start : Nat) (recs : List Record),
    (∀ j (hj : j < ps.length),
      ∃ r, mk (start + j) (ps.get ⟨j, hj⟩) = .ok r ∧ P (start + j) r) →
    ∃ out, playersLoop mk start ps recs = (recs ++ out, true) ∧
      out.length = ps.length ∧
      ∀ j (hj : j < out.length), P (start + j) (out.get ⟨j, hj⟩) := by
  intro ps
  induction ps with
  | nil =>
    intro start recs _
    exact ⟨[], by simp [playersLoop], rfl, fun j hj => absurd hj (by simp at hj)⟩
  | cons p ps ih =>
    intro start recs hmk
    obtain ⟨r0, hr0, hP0⟩ := hmk 0 (by simp)
    have hr0m : mk start p = .ok r0 := by simpa using hr0
    have hshift : ∀ j (hj : j < ps.length),
        ∃ r, mk (start + 1 + j) (ps.get ⟨j, hj⟩) = .ok r ∧ P (start + 1 + j) r := by
      intro j hj
      obtain ⟨r, hr, hP⟩ := hmk (j + 1) (by simpa using Nat.succ_lt_succ hj)
      rw [show start + (j + 1) = start + 1 + j by omega] at hr hP
      exact ⟨r, hr, hP⟩
    obtain ⟨out, hloop, hlen, hPs⟩ := ih (start + 1) (recs ++ [r0]) hshift
    refine ⟨r0 :: out, ?_, by simp [hlen], ?_⟩
    · rw [playersLoop, hr0m]
      simp [hloop]
    · intro j hj
      cases j with
      | zero => simpa using hP0
      | succ j =>
        have hjo : j < out.length := by simpa using Nat.lt_of_succ_lt_succ hj
        have := hPs j hjo
        rw [show start + (j + 1) = start + 1 + j by omega]
        simpa using this

/-- C3 amended: for a document whose boxscore, teams and `players` arrays
are present, and all of whose roster entries are objects with an object
`statistics` value, extract_player_statistics returns exactly H + A records
(home records first), where positional record j of each team's block
carries `player_index = j` and the team's `is_home_team` flag — indices are
0-based, contiguous and unique per team, in roster order.  (Without the
roster-entry condition the loop stops early, see the counterexample.) -/
theorem extract_player_statistics_counts (kvs bkvs hkvs akvs :
    List (String × Json)) (hps aps : List Json) (sf : String) (gd : Json)
    (hbst : kvs.lookup "boxScoreTraditional" = some (Json.obj bkvs))
    (hh : (bkvs.lookup "homeTeam").getD .null = Json.obj hkvs)
    (hhp : (hkvs.lookup "players").getD .null = Json.arr hps)
    (ha : (bkvs.lookup "awayTeam").getD .null = Json.obj akvs)
    (hap : (akvs.lookup "players").getD .null = Json.arr aps)
    (hwf : ∀ p ∈ hps ++ aps, playerStatsReady p = true) :
    ∃ hrecs arecs,
      extract_player_statistics (Json.obj kvs) sf gd = hrecs ++ arecs ∧
      hrecs.length = hps.length ∧ arecs.length = aps.length ∧
      (∀ j (hj : j < hrecs.length),
        (hrecs.get ⟨j, hj⟩).lookup "player_index" = some (Json.num j) ∧
        (hrecs.get ⟨j, hj⟩).lookup "is_home_team" = some (Json.bool true)) ∧
      (∀ j (hj : j < arecs.length),
        (arecs.get ⟨j, hj⟩).lookup "player_index" = some (Json.num j) ∧
        (arecs.get ⟨j, hj⟩).lookup "is_home_team" = some (Json.bool false)) := by
  have hmkH : ∀ j (hj : j < hps.length),
      ∃ r, playerRecord ((bkvs.lookup "gameId").getD .null)
          ((hkvs.lookup "teamId").getD .null) true (0 + j)
          (hps.get ⟨j, hj⟩) sf gd = .ok r ∧
        (r.lookup "player_index" = some (Json.num (0 + j)) ∧
         r.lookup "is_home_team" = some (Json.bool true)) := by
    intro j hj
    obtain ⟨r, hr, h1, h2, _, _⟩ := playerRecord_ready
      ((bkvs.lookup "gameId").getD .null) ((hkvs.lookup "teamId").getD .null)
      true (0 + j) (hps.get ⟨j, hj⟩) sf gd
      (hwf _ (List.mem_append_left _ (hps.get_mem j hj)))
    exact ⟨r, hr, h1, h2⟩
  obtain ⟨hout, hloopH, hlenH, hPH⟩ := playersLoop_ok
    (fun i p => playerRecord ((bkvs.lookup "gameId").getD .null)
      ((hkvs.lookup "teamId").getD .null) true i p sf gd)
    (fun i r => r.lookup "player_index" = some (Json.num i) ∧
      r.lookup "is_home_team" = some (Json.bool true)) hps 0 [] hmkH
  have hmkA : ∀ j (hj : j < aps.length),
      ∃ r, playerRecord ((bkvs.lookup "gameId").getD .null)
          ((akvs.lookup "teamId").getD .null) false (0 + j)
          (aps.get ⟨j, hj⟩) sf gd = .ok r ∧
        (r.lookup "player_index" = some (Json.num (0 + j)) ∧
         r.lookup "is_home_team" = some (Json.bool false)) := by
    intro j hj
    obtain ⟨r, hr, h1, h2, _, _⟩ := playerRecord_ready
      ((bkvs.lookup "gameId").getD .null) ((akvs.lookup "teamId").getD .null)
      false (0 + j) (aps.get ⟨j, hj⟩) sf gd
      (hwf _ (List.mem_append_right _ (aps.get_mem j hj)))
    exact ⟨r, hr, h1, h2⟩
  obtain ⟨aout, hloopA, hlenA, hPA⟩ := playersLoop_ok
    (fun i p => playerRecord ((bkvs.lookup "gameId").getD .null)
      ((akvs.lookup "teamId").getD .null) false i p sf gd)
    (fun i r => r.lookup "player_index" = some (Json.num i) ∧
      r.lookup "is_home_team" = some (Json.bool false)) aps 0 hout hmkA
  have hloopHn : playersLoop
      (fun i p => playerRecord ((bkvs.lookup "gameId").getD .null)
        ((hkvs.lookup "teamId").getD .null) true i p sf gd) 0 hps [] =
      (hout, true) := by simpa using hloopH
  refine ⟨hout, aout, ?_, hlenH, hlenA, ?_, ?_⟩
  · simp [extract_player_statistics, pyGet, hbst, hh, hhp, ha, hap,
      pyIterate, hloopHn, hloopA]
  · intro j hj
    simpa using hPH j hj
  · intro j hj
    simpa using hPA j hj

/-- C3 counterexample: on a document with H = 1 and A = 0 whose single
roster entry lacks `statistics`, the record dict literal raises
(`stats.get` on `None`), the loop's try/except keeps only the records
accumulated so far, and the extractor returns 0 records instead of the
claimed H + A = 1. -/
theorem player_statistics_count_counterexample :
    rosterLengths statlessPlayerDoc = Except.ok (1, 0) ∧
    (extract_player_statistics statlessPlayerDoc "f" Json.null).length = 0 :=
  ⟨rfl, rfl⟩

/-- Witness for C3's amended statement at the complete fixture document
(H = 2, A = 1). -/
theorem extract_player_statistics_counts_witness :
    ∃ hrecs arecs,
      extract_player_statistics (Json.obj fullGameKvs) "f" Json.null =
        hrecs ++ arecs ∧
      hrecs.length = homeTeamPlayers.length ∧
      arecs.length = awayTeamPlayers.length ∧
      (∀ j (hj : j < hrecs.length),
        (hrecs.get ⟨j, hj⟩).lookup "player_index" = some (Json.num j) ∧
        (hrecs.get ⟨j, hj⟩).lookup "is_home_team" = some (Json.bool true)) ∧
      (∀ j (hj : j < arecs.length),
        (arecs.get ⟨j, hj⟩).lookup "player_index" = some (Json.num j) ∧
        (arecs.get ⟨j, hj⟩).lookup "is_home_team" = some (Json.bool false)) :=
  extract_player_statistics_counts fullGameKvs boxKvs homeTeamKvs awayTeamKvs
    homeTeamPlayers awayTeamPlayers "f" Json.null rfl rfl rfl rfl rfl
    (by decide)

theorem teamInfoRecord_stamped (game_id team : Json) (is_home : Bool)
    (sf : String) (gd : Json) (r : Record)
    (h : teamInfoRecord game_id team is_home sf gd = .ok r) :
    stamped sf gd r := by
  cases team with
  | obj tkvs =>
    rw [teamInfoRecord_obj] at h
    injection h with h
    subst h
    exact ⟨rfl, rfl⟩
  | null => exact Except.noConfusion h
  | bool b => exact Except.noConfusion h
  | num n => exact Except.noConfusion h
  | str s => exact Except.noConfusion h
  | arr xs => exact Except.noConfusion h

theorem teamStatsRecord_stamped (game_id team stats : Json) (is_home : Bool)
    (sf : String) (gd : Json) (r : Record)
    (h : teamStatsRecord game_id team stats is_home sf gd = .ok r) :
    stamped sf gd r := by
  cases team with
  | obj tkvs =>
    cases stats with
    | obj skvs =>
      rw [teamStatsRecord_obj] at h
      injection h with h
      subst h
      exact ⟨rfl, rfl⟩
    | null => exact Except.noConfusion h
    | bool b => exact Except.noConfusion h
    | num n => exact Except.noConfusion h
    | str s => exact Except.noConfusion h
    | arr xs => exact Except.noConfusion h
  | null => exact Except.noConfusion h
  | bool b => exact Except.noConfusion h
  | num n => exact Except.noConfusion h
  | str s => exact Except.noConfusion h
  | arr xs => exact Except.noConfusion h

theorem teamStartersRecord_stamped (game_id team starters : Json)
    (is_home : Bool) (sf : String) (gd : Json) (r : Record)
    (h : teamStartersRecord game_id team starters is_home sf gd = .ok r) :
    stamped sf gd r := by
  cases team with
  | obj tkvs =>
    cases starters with
    | obj skvs =>
      rw [teamStartersRecord_obj] at h
      injection h with h
      subst h
      exact ⟨rfl, rfl⟩
    | null => exact Except.noConfusion h
    | bool b => exact Except.noConfusion h
    | num n => exact Except.noConfusion h
    | str s => exact Except.noConfusion h
    | arr xs => exact Except.noConfusion h
  | null => exact Except.noConfusion h
  | bool b => exact Except.noConfusion h
  | num n => exact Except.noConfusion h
  | str s => exact Except.noConfusion h
  | arr xs => exact Except.noConfusion h

theorem playerRecord_stats_err (game_id team_id : Json) (is_home : Bool)
    (i : Nat) (pkvs : List (String × Json)) (sf : String) (gd : Json)
    (h : teamStatsFields ((pkvs.lookup "statistics").getD .null) = .error ()) :
    playerRecord game_id team_id is_home i (Json.obj pkvs) sf gd =
      .error () := by
  simp [playerRecord, pyGet, h]

theorem playerRecord_stamped (game_id team_id : Json) (is_home : Bool)
    (i : Nat) (p : Json) (sf : String) (gd : Json) (r : Record)
    (h : playerRecord game_id team_id is_home i p sf gd = .ok r) :
    stamped sf gd r := by
  cases p with
  | obj pkvs =>
    rcases hst : (pkvs.lookup "statistics").getD .null with _ | b | n | s | xs | skvs
    · rw [playerRecord_stats_err game_id team_id is_home i pkvs sf gd
        (by rw [hst]; rfl)] at h
      exact Except.noConfusion h
    · rw [playerRecord_stats_err game_id team_id is_home i pkvs sf gd
        (by rw [hst]; rfl)] at h
      exact Except.noConfusion h
    · rw [playerRecord_stats_err game_id team_id is_home i pkvs sf gd
        (by rw [hst]; rfl)] at h
      exact Except.noConfusion h
    · rw [playerRecord_stats_err game_id team_id is_home i pkvs sf gd
        (by rw [hst]; rfl)] at h
      exact Except.noConfusion h
    · rw [playerRecord_stats_err game_id team_id is_home i pkvs sf gd
        (by rw [hst]; rfl)] at h
      exact Except.noConfusion h
    · rw [playerRecord_obj game_id team_id is_home i pkvs skvs sf gd hst] at h
      injection h with h
      subst h
      exact ⟨rfl, rfl⟩
  | null => exact Except.noConfusion h
  | bool b => exact Except.noConfusion h
  | num n => exact Except.noConfusion h
  | str s => exact Except.noConfusion h
  | arr xs => exact Except.noConfusion h

theorem extract_meta_data_stamped (data : Json) (sf : String) (gd : Json)
    (r : Record) (h : r ∈ extract_meta_data data sf gd) : stamped sf gd r := by
  unfold extract_meta_data at h
  split at h
  · simp at h
  · split at h
    · split at h
      · rw [List.mem_singleton] at h
        subst h
        exact ⟨rfl, rfl⟩
      · simp at h
    · simp at h

theorem extract_game_header_stamped (data : Json) (sf : String) (gd : Json)
    (r : Record) (h : r ∈ extract_game_header data sf gd) : stamped sf gd r := by
  unfold extract_game_header at h
  split at h
  · simp at h
  · split at h
    · split at h
      · rw [List.mem_singleton] at h
        subst h
        exact ⟨rfl, rfl⟩
      · simp at h
    · simp at h

theorem extract_team_info_stamped (data : Json) (sf : String) (gd : Json)
    (r : Record) (h : r ∈ extract_team_info data sf gd) : stamped sf gd r := by
  cases data with
  | null => simp [extract_team_info, pyGet] at h
  | bool b => simp [extract_team_info, pyGet] at h
  | num n => simp [extract_team_info, pyGet] at h
  | str s => simp [extract_team_info, pyGet] at h
  | arr xs => simp [extract_team_info, pyGet] at h
  | obj kvs =>
    unfold extract_team_info at h
    simp only [pyGet] at h
    rcases hbox : (kvs.lookup "boxScoreTraditional").getD Json.null
        with _ | b | n | s | xs | bkvs <;> rw [hbox] at h
    · simp at h
    · simp at h
    · simp at h
    · simp at h
    · simp at h
    · simp only [pyGet] at h
      cases ht : truthy ((bkvs.lookup "homeTeam").getD Json.null) with
      | false =>
        cases hat : truthy ((bkvs.lookup "awayTeam").getD Json.null) with
        | false => simp [ht, hat] at h
        | true =>
          rcases hrec2 : teamInfoRecord ((bkvs.lookup "gameId").getD Json.null)
              ((bkvs.lookup "awayTeam").getD Json.null) false sf gd with e | r2
          · simp [ht, hat, hrec2] at h
          · simp [ht, hat, hrec2] at h
            subst h
            exact teamInfoRecord_stamped _ _ _ _ _ _ hrec2
      | true =>
        rcases hrec1 : teamInfoRecord ((bkvs.lookup "gameId").getD Json.null)
            ((bkvs.lookup "homeTeam").getD Json.null) true sf gd with e | r1
        · simp [ht, hrec1] at h
        · cases hat : truthy ((bkvs.lookup "awayTeam").getD Json.null) with
          | false =>
            simp [ht, hrec1, hat] at h
            subst h
            exact teamInfoRecord_stamped _ _ _ _ _ _ hrec1
          | true =>
            rcases hrec2 : teamInfoRecord ((bkvs.lookup "gameId").getD Json.null)
                ((bkvs.lookup "awayTeam").getD Json.null) false sf gd with e | r2
            · simp [ht, hrec1, hat, hrec2] at h
              subst h
              exact teamInfoRecord_stamped _ _ _ _ _ _ hrec1
            · simp [ht, hrec1, hat, hrec2] at h
              rcases h with rfl | rfl
              · exact teamInfoRecord_stamped _ _ _ _ _ _ hrec1
              · exact teamInfoRecord_stamped _ _ _ _ _ _ hrec2

theorem extract_team_statistics_stamped (data : Json) (sf : String)
    (gd : Json) (r : Record) (h : r ∈ extract_team_statistics data sf gd) :
    stamped sf gd r := by
  cases data with
  | null => simp [extract_team_statistics, pyGet] at h
  | bool b => simp [extract_team_statistics, pyGet] at h
  | num n => simp [extract_team_statistics, pyGet] at h
  | str s => simp [extract_team_statistics, pyGet] at h
  | arr xs => simp [extract_team_statistics, pyGet] at h
  | obj kvs =>
    unfold extract_team_statistics at h
    simp only [pyGet] at h
    rcases hbox : (kvs.lookup "boxScoreTraditional").getD Json.null
        with _ | b | n | s | xs | bkvs <;> rw [hbox] at h
    · simp at h
    · simp at h
    · simp at h
    · simp at h
    · simp at h
    · simp only [pyGet] at h
      rcases hhome : (bkvs.lookup "homeTeam").getD Json.null
          with _ | b | n | s | xs | hkvs <;> rw [hhome] at h
      · simp [pyGet] at h
      · simp [pyGet] at h
      · simp [pyGet] at h
      · simp [pyGet] at h
      · simp [pyGet] at h
      · simp only [pyGet] at h
        cases ht : truthy ((hkvs.lookup "statistics").getD Json.null) with
        | false =>
          rcases haway : (bkvs.lookup "awayTeam").getD Json.null
              with _ | b | n | s | xs | akvs <;> rw [haway] at h
          · simp [ht, pyGet] at h
          · simp [ht, pyGet] at h
          · simp [ht, pyGet] at h
          · simp [ht, pyGet] at h
          · simp [ht, pyGet] at h
          · simp only [pyGet] at h
            cases hat : truthy ((akvs.lookup "statistics").getD Json.null) with
            | false => simp [ht, hat] at h
            | true =>
              rcases hrec2 : teamStatsRecord
                  ((bkvs.lookup "gameId").getD Json.null) (Json.obj akvs)
                  ((akvs.lookup "statistics").getD Json.null) false sf gd
                  with e | r2
              · simp [ht, hat, hrec2] at h
              · simp [ht, hat, hrec2] at h
                subst h
                exact teamStatsRecord_stamped _ _ _ _ _ _ _ hrec2
        | true =>
          rcases hrec1 : teamStatsRecord
              ((bkvs.lookup "gameId").getD Json.null) (Json.obj hkvs)
              ((hkvs.lookup "statistics").getD Json.null) true sf gd
              with e | r1
          · simp [ht, hrec1] at h
          · rcases haway : (bkvs.lookup "awayTeam").getD Json.null
                with _ | b | n | s | xs | akvs <;> rw [haway] at h
            · simp [ht, hrec1, pyGet] at h
              subst h
              exact teamStatsRecord_stamped _ _ _ _ _ _ _ hrec1
            · simp [ht, hrec1, pyGet] at h
              subst h
              exact teamStatsRecord_stamped _ _ _ _ _ _ _ hrec1
            · simp [ht, hrec1, pyGet] at h
              subst h
              exact teamStatsRecord_stamped _ _ _ _ _ _ _ hrec1
            · simp [ht, hrec1, pyGet] at h
              subst h
              exact teamStatsRecord_stamped _ _ _ _ _ _ _ hrec1
            · simp [ht, hrec1, pyGet] at h
              subst h
              exact teamStatsRecord_stamped _ _ _ _ _ _ _ hrec1
            · simp only [pyGet] at h
              cases hat : truthy ((akvs.lookup "statistics").getD Json.null) with
              | false =>
                simp [ht, hrec1, hat] at h
                subst h
                exact teamStatsRecord_stamped _ _ _ _ _ _ _ hrec1
              | true =>
                rcases hrec2 : teamStatsRecord
                    ((bkvs.lookup "gameId").getD Json.null) (Json.obj akvs)
                    ((akvs.lookup "statistics").getD Json.null) false sf gd
                    with e | r2
                · simp [ht, hrec1, hat, hrec2] at h
                  subst h
                  exact teamStatsRecord_stamped _ _ _ _ _ _ _ hrec1
                · simp [ht, hrec1, hat, hrec2] at h
                  rcases h with rfl | rfl
                  · exact teamStatsRecord_stamped _ _ _ _ _ _ _ hrec1
                  · exact teamStatsRecord_stamped _ _ _ _ _ _ _ hrec2

theorem extract_team_starters_stamped (data : Json) (sf : String)
    (gd : Json) (r : Record) (h : r ∈ extract_team_starters data sf gd) :
    stamped sf gd r := by
  cases data with
  | null => simp [extract_team_starters, pyGet] at h
  | bool b => simp [extract_team_starters, pyGet] at h
  | num n => simp [extract_team_starters, pyGet] at h
  | str s => simp [extract_team_starters, pyGet] at h
  | arr xs => simp [extract_team_starters, pyGet] at h
  | obj kvs =>
    unfold extract_team_starters at h
    simp only [pyGet] at h
    rcases hbox : (kvs.lookup "boxScoreTraditional").getD Json.null
        with _ | b | n | s | xs | bkvs <;> rw [hbox] at h
    · simp at h
    · simp at h
    · simp at h
    · simp at h
    · simp at h
    · simp only [pyGet] at h
      rcases hhome : (bkvs.lookup "homeTeam").getD Json.null
          with _ | b | n | s | xs | hkvs <;> rw [hhome] at h
      · simp [pyGet] at h
      · simp [pyGet] at h
      · simp [pyGet] at h
      · simp [pyGet] at h
      · simp [pyGet] at h
      · simp only [pyGet] at h
        cases ht : truthy ((hkvs.lookup "starters").getD Json.null) with
        | false =>
          rcases haway : (bkvs.lookup "awayTeam").getD Json.null
              with _ | b | n | s | xs | akvs <;> rw [haway] at h
          · simp [ht, pyGet] at h
          · simp [ht, pyGet] at h
          · simp [ht, pyGet] at h
          · simp [ht, pyGet] at h
          · simp [ht, pyGet] at h
          · simp only [pyGet] at h
            cases hat : truthy ((akvs.lookup "starters").getD Json.null) with
            | false => simp [ht, hat] at h
            | true =>
              rcases hrec2 : teamStartersRecord
                  ((bkvs.lookup "gameId").getD Json.null) (Json.obj akvs)
                  ((akvs.lookup "starters").getD Json.null) false sf gd
                  with e | r2
              · simp [ht, hat, hrec2] at h
              · simp [ht, hat, hrec2] at h
                subst h
                exact teamStartersRecord_stamped _ _ _ _ _ _ _ hrec2
        | true =>
          rcases hrec1 : teamStartersRecord
              ((bkvs.lookup "gameId").getD Json.null) (Json.obj hkvs)
              ((hkvs.lookup "starters").getD Json.null) true sf gd
              with e | r1
          · simp [ht, hrec1] at h
          · rcases haway : (bkvs.lookup "awayTeam").getD Json.null
                with _ | b | n | s | xs | akvs <;> rw [haway] at h
            · simp [ht, hrec1, pyGet] at h
              subst h
              exact teamStartersRecord_stamped _ _ _ _ _ _ _ hrec1
            · simp [ht, hrec1, pyGet] at h
              subst h
              exact teamStartersRecord_stamped _ _ _ _ _ _ _ hrec1
            · simp [ht, hrec1, pyGet] at h
              subst h
              exact teamStartersRecord_stamped _ _ _ _ _ _ _ hrec1
            · simp [ht, hrec1, pyGet] at h
              subst h
              exact teamStartersRecord_stamped _ _ _ _ _ _ _ hrec1
            · simp [ht, hrec1, pyGet] at h
              subst h
              exact teamStartersRecord_stamped _ _ _ _ _ _ _ hrec1
            · simp only [pyGet] at h
              cases hat : truthy ((akvs.lookup "starters").getD Json.null) with
              | false =>
                simp [ht, hrec1, hat] at h
                subst h
                exact teamStartersRecord_stamped _ _ _ _ _ _ _ hrec1
              | true =>
                rcases hrec2 : teamStartersRecord
                    ((bkvs.lookup "gameId").getD Json.null) (Json.obj akvs)
                    ((akvs.lookup "starters").getD Json.null) false sf gd
                    with e | r2
                · simp [ht, hrec1, hat, hrec2] at h
                  subst h
                  exact teamStartersRecord_stamped _ _ _ _ _ _ _ hrec1
                · simp [ht, hrec1, hat, hrec2] at h
                  rcases h with rfl | rfl
                  · exact teamStartersRecord_stamped _ _ _ _ _ _ _ hrec1
                  · exact teamStartersRecord_stamped _ _ _ _ _ _ _ hrec2

theorem playersLoop_mem (mk : Nat → Json → Except Unit Record) :
    ∀ (ps : List Json) (start : Nat) (recs : List Record) (r : Record),
    r ∈ (playersLoop mk start ps recs).1 →
    r ∈ recs ∨ ∃ i p, p ∈ ps ∧ mk i p = .ok r := by
  intro ps
  induction ps with
  | nil => intro start recs r h; exact Or.inl h
  | cons p ps ih =>
    intro start recs r h
    rw [playersLoop] at h
    rcases hmk : mk start p with e | r0 <;> rw [hmk] at h
    · exact Or.inl h
    · rcases ih (start + 1) (recs ++ [r0]) r h with h0 | ⟨i, q, hq, hok⟩
      · rcases List.mem_append.mp h0 with h1 | h1
        · exact Or.inl h1
        · rw [List.mem_singleton] at h1
          subst h1
          exact Or.inr ⟨start, p, List.mem_cons_self p ps, hmk⟩
      · exact Or.inr ⟨i, q, List.mem_cons_of_mem p hq, hok⟩

theorem extract_player_statistics_stamped (data : Json) (sf : String)
    (gd : Json) (r : Record) (h : r ∈ extract_player_statistics data sf gd) :
    stamped sf gd r := by
  cases data with
  | null => simp [extract_player_statistics, pyGet] at h
  | bool b => simp [extract_player_statistics, pyGet] at h
  | num n => simp [extract_player_statistics, pyGet] at h
  | str s => simp [extract_player_statistics, pyGet] at h
  | arr xs => simp [extract_player_statistics, pyGet] at h
  | obj kvs =>
    unfold extract_player_statistics at h
    simp only [pyGet] at h
    rcases hbox : (kvs.lookup "boxScoreTraditional").getD Json.null
        with _ | b | n | s | xs | bkvs <;> rw [hbox] at h
    · simp at h
    · simp at h
    · simp at h
    · simp at h
    · simp at h
    · simp only [pyGet] at h
      rcases hhome : (bkvs.lookup "homeTeam").getD Json.null
          with _ | b | n | s | xs | hkvs <;> rw [hhome] at h
      · simp [pyGet] at h
      · simp [pyGet] at h
      · simp [pyGet] at h
      · simp [pyGet] at h
      · simp [pyGet] at h
      · simp only [pyGet] at h
        rcases hit : pyIterate ((hkvs.lookup "players").getD Json.null)
            with e | hps <;> rw [hit] at h
        · simp at h
        · simp only [] at h
          rcases hloop : playersLoop
              (fun i p => playerRecord ((bkvs.lookup "gameId").getD Json.null)
                ((hkvs.lookup "teamId").getD Json.null) true i p sf gd)
              0 hps [] with ⟨recs, flag⟩
          have hrecs : ∀ q ∈ recs, stamped sf gd q := by
            intro q hq
            rcases playersLoop_mem _ hps 0 [] q (by rw [hloop]; exact hq)
                with h0 | ⟨i, p, hp, hok⟩
            · simp at h0
            · exact playerRecord_stamped _ _ _ _ _ _ _ _ hok
          rw [hloop] at h
          cases flag with
          | false => exact hrecs r h
          | true =>
            rcases haway : (bkvs.lookup "awayTeam").getD Json.null
                with _ | b | n | s | xs | akvs <;> rw [haway] at h
            · exact hrecs r h
            · exact hrecs r h
            · exact hrecs r h
            · exact hrecs r h
            · exact hrecs r h
            · simp only [] at h
              rcases hit2 : pyIterate ((akvs.lookup "players").getD Json.null)
                  with e | aps <;> rw [hit2] at h
              · exact hrecs r h
              · have hh : r ∈ (playersLoop
                    (fun i p => playerRecord
                      ((bkvs.lookup "gameId").getD Json.null)
                      ((akvs.lookup "teamId").getD Json.null) false i p sf gd)
                    0 aps recs).1 := h
                rcases playersLoop_mem _ aps 0 recs r hh
                    with h0 | ⟨i, p, hp, hok⟩
                · exact hrecs r h0
                · exact playerRecord_stamped _ _ _ _ _ _ _ _ hok

/-- C9: within the record list process_single_file produces for one
document, every record — across all six variants — carries the same
source_file value (the blob name) and the same game_date value (the date
derived from the blob path). -/
theorem process_single_file_stamped (blob_name : String)
    (raw : Except Unit Json) (recs : List Record)
    (h : process_single_file blob_name raw = .ok recs) :
    ∀ r ∈ recs, r.lookup "source_file" = some (Json.str blob_name) ∧
      r.lookup "game_date" = some (gameDateOf blob_name) := by
  cases raw with
  | error e => exact absurd h (by simp [process_single_file])
  | ok data =>
    have hrecs : recs =
        extract_meta_data data blob_name (gameDateOf blob_name) ++
        extract_game_header data blob_name (gameDateOf blob_name) ++
        extract_team_info data blob_name (gameDateOf blob_name) ++
        extract_team_statistics data blob_name (gameDateOf blob_name) ++
        extract_team_starters data blob_name (gameDateOf blob_name) ++
        extract_player_statistics data blob_name (gameDateOf blob_name) := by
      have := h.symm
      simpa [process_single_file] using this
    subst hrecs
    intro r hr
    rcases List.mem_append.mp hr with hr | hr6
    rotate_left
    · exact extract_player_statistics_stamped data _ _ r hr6
    rcases List.mem_append.mp hr with hr | hr5
    rotate_left
    · exact extract_team_starters_stamped data _ _ r hr5
    rcases List.mem_append.mp hr with hr | hr4
    rotate_left
    · exact extract_team_statistics_stamped data _ _ r hr4
    rcases List.mem_append.mp hr with hr | hr3
    rotate_left
    · exact extract_team_info_stamped data _ _ r hr3
    rcases List.mem_append.mp hr with hr1 | hr2
    · exact extract_meta_data_stamped data _ _ r hr1
    · exact extract_game_header_stamped data _ _ r hr2

/-- Witness for C9: the first record (the meta record) of the fixture
document's run carries the blob name and the derived date 2025-04-05. -/
theorem process_single_file_stamped_witness :
    ([("block_type", Json.str "meta"), ("version", Json.num 1),
      ("request", Json.str "url"), ("time", Json.str "2025-04-05"),
      ("source_file", Json.str fullBlobName),
      ("game_date", gameDateOf fullBlobName)] : Record).lookup "source_file" =
        some (Json.str fullBlobName) ∧
    ([("block_type", Json.str "meta"), ("version", Json.num 1),
      ("request", Json.str "url"), ("time", Json.str "2025-04-05"),
      ("source_file", Json.str fullBlobName),
      ("game_date", gameDateOf fullBlobName)] : Record).lookup "game_date" =
        some (gameDateOf fullBlobName) :=
  process_single_file_stamped fullBlobName (Except.ok fullGameDoc)
    fullGameRecords rfl _ (List.Mem.head _)

theorem exceptMap_error {α β : Type} (f : α → Except Unit β) :
    ∀ (l : List α) (a : α), a ∈ l → f a = .error () →
    exceptMap f l = .error () := by
  intro l
  induction l with
  | nil => intro a ha _; simp at ha
  | cons b bs ih =>
    intro a ha hfa
    rcases List.mem_cons.mp ha with he | hm
    · subst he
      simp [exceptMap, hfa]
    · rw [exceptMap]
      cases hfb : f b
      · rfl
      · rw [ih a hm hfa]

/-- C1 counterexample: a document whose raw_response fails to parse makes
process_single_file itself return the error — the source has no try/except
at the document boundary — and one such document in a run makes the whole
process_yesterdays_games call fail, so the other documents of the run
contribute nothing, even though alone they contribute records (11 for the
fixture document). -/
theorem document_error_counterexample :
    process_single_file "bad.parquet" (Except.error ()) = Except.error () ∧
    process_yesterdays_games
      [(fullBlobName, Except.ok fullGameDoc),
       ("bad.parquet", Except.error ())] = Except.error () ∧
    process_yesterdays_games [(fullBlobName, Except.ok fullGameDoc)] =
      Except.ok fullGameRecords ∧
    fullGameRecords.length = 11 :=
  ⟨rfl, rfl, rfl, rfl⟩

/-- C1 amended: an error outside the six extractors is NOT caught at the
document boundary: process_single_file propagates it, and any document in a
run whose raw payload processing fails aborts the whole
process_yesterdays_games call, losing every document's records. -/
theorem document_error_propagates (blobs : List (String × Except Unit Json))
    (bn : String)
    (hmem : (bn, (Except.error () : Except Unit Json)) ∈ blobs) :
    process_single_file bn (Except.error ()) = Except.error () ∧
    process_yesterdays_games blobs = Except.error () := by
  refine ⟨rfl, ?_⟩
  have hne : blobs.isEmpty = false := by
    cases blobs with
    | nil => simp at hmem
    | cons b bs => rfl
  have hmap := exceptMap_error (fun b => process_single_file b.1 b.2) blobs
    (bn, Except.error ()) hmem (by rfl)
  simp [process_yesterdays_games, hne, hmap]

/-- Witness for C1's amended statement: a one-document run whose document
fails to parse. -/
theorem document_error_propagates_witness :
    process_single_file "bad.parquet" (Except.error ()) = Except.error () ∧
    process_yesterdays_games [("bad.parquet", Except.error ())] =
      Except.error () :=
  document_error_propagates [("bad.parquet", Except.error ())] "bad.parquet"
    (List.Mem.head _)

/-- C2 counterexample: `awayTeam` is an expected nested key of the
team-scoped extractors' paths, yet on a document where it is absent (home
side complete) extract_team_info and extract_team_statistics return the
one home record already accumulated — not an empty record set for their
variant — so the claim's general conjunct is false as stated. -/
theorem missing_away_team_counterexample :
    awayMissingBoxKvs.lookup "awayTeam" = none ∧
    (extract_team_info awayMissingDoc "f" Json.null).length = 1 ∧
    (extract_team_statistics awayMissingDoc "f" Json.null).length = 1 :=
  ⟨rfl, rfl, rfl⟩

/-- C2 amended: every extractor is a total Lean function (no exception
escapes the caller — each try/except is part of the definition), and an
absent expected key makes an extractor return exactly the records
accumulated before the absence is reached, affecting its own variant only.
That is the empty list when the miss is at or above the root of its
navigation — in particular, on any document lacking `boxScoreTraditional`
the five boxscore-rooted extractors all return empty lists while
extract_meta_data's output on the same document is unchanged — but a
document whose `awayTeam` key is absent while the home side is complete
yields precisely the single home record from extract_team_info and
extract_team_statistics. -/
theorem extractor_missing_key_behavior (data v : Json) (sf : String)
    (gd : Json) :
    (lacksBox data = true →
      extract_game_header data sf gd = [] ∧
      extract_team_info data sf gd = [] ∧
      extract_team_statistics data sf gd = [] ∧
      extract_team_starters data sf gd = [] ∧
      extract_player_statistics data sf gd = [] ∧
      extract_meta_data (insertBox v data) sf gd =
        extract_meta_data data sf gd) ∧
    (∀ kvs bkvs hkvs, data = Json.obj kvs →
      kvs.lookup "boxScoreTraditional" = some (Json.obj bkvs) →
      bkvs.lookup "awayTeam" = none →
      (bkvs.lookup "homeTeam").getD Json.null = Json.obj hkvs →
      hkvs.isEmpty = false →
      extract_team_info data sf gd =
        [teamInfoRec ((bkvs.lookup "gameId").getD Json.null) hkvs
          true sf gd]) ∧
    (∀ kvs bkvs hkvs hskvs, data = Json.obj kvs →
      kvs.lookup "boxScoreTraditional" = some (Json.obj bkvs) →
      bkvs.lookup "awayTeam" = none →
      (bkvs.lookup "homeTeam").getD Json.null = Json.obj hkvs →
      (hkvs.lookup "statistics").getD Json.null = Json.obj hskvs →
      hskvs.isEmpty = false →
      extract_team_statistics data sf gd =
        [teamStatsRec ((bkvs.lookup "gameId").getD Json.null) hkvs hskvs
          true sf gd]) := by
  refine ⟨extractors_without_boxscore data v sf gd, ?_, ?_⟩
  · intro kvs bkvs hkvs hdata hbst hna hh hne
    subst hdata
    simp [extract_team_info, pyGet, hbst, hna, hh, truthy, hne,
      teamInfoRecord_obj]
  · intro kvs bkvs hkvs hskvs hdata hbst hna hh hhs hne
    subst hdata
    simp [extract_team_statistics, pyGet, hbst, hna, hh, hhs, truthy, hne,
      teamStatsRecord_obj]

/-- Witness for C2's amended statement: the root-missing case at the empty
document, and the missing-awayTeam case at a concrete document with a
complete home side. -/
theorem extractor_missing_key_behavior_witness :
    extract_game_header (Json.obj []) "f" Json.null = [] ∧
    extract_meta_data (insertBox Json.null (Json.obj [])) "f" Json.null =
      extract_meta_data (Json.obj []) "f" Json.null ∧
    extract_team_info awayMissingDoc "f" Json.null =
      [teamInfoRec (Json.str "0022400900") homeOnlyTeamKvs true "f"
        Json.null] ∧
    extract_team_statistics awayMissingDoc "f" Json.null =
      [teamStatsRec (Json.str "0022400900") homeOnlyTeamKvs
        [("points", Json.num 100)] true "f" Json.null] :=
  ⟨((extractor_missing_key_behavior (Json.obj []) Json.null "f"
      Json.null).1 rfl).1,
   ((extractor_missing_key_behavior (Json.obj []) Json.null "f"
      Json.null).1 rfl).2.2.2.2.2,
   (extractor_missing_key_behavior awayMissingDoc Json.null "f"
      Json.null).2.1 awayMissingKvs awayMissingBoxKvs homeOnlyTeamKvs
      rfl rfl rfl rfl rfl,
   (extractor_missing_key_behavior awayMissingDoc Json.null "f"
      Json.null).2.2 awayMissingKvs awayMissingBoxKvs homeOnlyTeamKvs
      [("points", Json.num 100)] rfl rfl rfl rfl rfl rfl⟩
